import Mathlib

/-!
Verification development for the Manifold identity-generation and
geo-consistency engine (`fingerprint.rs` and `geo_validator.rs`).

Modelling conventions:

* Machine integers (`u64`, `u32`, `u8`) are `Nat` with explicit `% 2^w`
  truncation wherever the source can overflow; `f64` noise, pixel-ratio and
  score values are `ℚ`.  Where the source's `f64` arithmetic is inexact —
  the interval map at the tail of `quantum_noise` — the rounding of each
  operation (and of the decimal literals) is modelled explicitly by `fl64`,
  IEEE-754 binary64 round-to-nearest-even; steps the source performs
  exactly in `f64` stay exact rationals.  The one remaining simplification
  is `mutate`'s outer add-and-clamp, kept exact because `f64::clamp`
  returns its bound arguments themselves when it engages, so the clamp
  facts proved about it are exact facts of the program.
* The BLAKE3 → SHA3-256 entropy chain (`QuantumEntropy`) is embedded
  concretely and executably, so noise channels are genuine functions of the
  seed.  Only single-chunk BLAKE3 inputs (≤ 1024 bytes) occur in the
  functions under study.
* The fast categorical PRNG (`rand::rngs::SmallRng`) is modelled as an
  oracle family `G : Nat → Nat → Nat`: `G s` is the draw stream of the
  instance seeded with `s`, and every primitive draw consumes one stream
  position and returns an arbitrary in-range value.  This abstraction is
  forced by `rand`'s rejection-sampling loop (which has no a-priori bound);
  every theorem below quantifies over all streams, hence covers the real
  stream.  Seeding an instance is `RngO.mk (G s) 0`, mirroring
  `SmallRng::seed_from_u64(s)`.
-/

set_option maxRecDepth 1000000

namespace Manifold

/- Batteries marks the `Rat` arithmetic operations `@[irreducible]`, which
blocks `decide`-style evaluation of concrete rational values; restore the
default reducibility for this verification development. -/
attribute [local semireducible] Rat.ofScientific Rat.mul Rat.inv Rat.add Rat.sub

/-! ## Byte and word utilities -/

def m32 (x : Nat) : Nat := x % 4294967296

def m64 (x : Nat) : Nat := x % 18446744073709551616

/-- Rotate a 32-bit word right by `n` (0 < n < 32). -/
def rotr32 (x n : Nat) : Nat := ((x >>> n) ||| (x <<< (32 - n))) % 4294967296

/-- Rotate a 64-bit word left by `n` (0 ≤ n < 64). -/
def rotl64 (x n : Nat) : Nat :=
  ((x <<< n) ||| (x >>> (64 - n))) % 18446744073709551616

/-- Little-endian bytes of a `u64` (`u64::to_le_bytes`). -/
def u64le (n : Nat) : List Nat := (List.range 8).map (fun i => n / 256 ^ i % 256)

/-- Little-endian bytes of a `u32`. -/
def u32le (n : Nat) : List Nat := (List.range 4).map (fun i => n / 256 ^ i % 256)

/-- Interpret a little-endian byte list as a natural number. -/
def leNat (b : List Nat) : Nat := b.foldr (fun x acc => x + 256 * acc) 0

/-- Split a list into consecutive chunks of size `k` (`k > 0`); the final
chunk may be short.  Structural fuel recursion for kernel-friendly
evaluation. -/
def chunkGo (k : Nat) : Nat → List α → List (List α)
  | 0, _ => []
  | _, [] => []
  | fuel + 1, l => l.take k :: chunkGo k fuel (l.drop k)

def chunksOf (k : Nat) (l : List α) : List (List α) := chunkGo k l.length l

/-- UTF-8 bytes of an ASCII string (all strings in this development are
ASCII, where UTF-8 bytes coincide with code points). -/
def strBytes (s : String) : List Nat := s.data.map Char.toNat

/-! ### Kernel-reducible string primitives

The `String` library implements `splitOn`, `startsWith`, `toUpper`, … by
position-based well-founded recursion, which the kernel cannot evaluate
effectively.  The following equivalents work structurally on the underlying
character list and agree with the Rust `str` operations on the ASCII data
this program manipulates. -/

def charLower (c : Char) : Char :=
  if 65 ≤ c.toNat ∧ c.toNat ≤ 90 then Char.ofNat (c.toNat + 32) else c

def charUpper (c : Char) : Char :=
  if 97 ≤ c.toNat ∧ c.toNat ≤ 122 then Char.ofNat (c.toNat - 32) else c

def strToLower (s : String) : String := String.mk (s.data.map charLower)

def strToUpper (s : String) : String := String.mk (s.data.map charUpper)

def listIsPfx : List Char → List Char → Bool
  | [], _ => true
  | _ :: _, [] => false
  | a :: as, b :: bs => a == b && listIsPfx as bs

/-- `str::starts_with`. -/
def strStartsWith (s p : String) : Bool := listIsPfx p.data s.data

/-- Substring split, fuel-structured for kernel evaluation (the separator is
always nonempty here, so the fuel `length + 1` never runs out). -/
def splitGo (sep : List Char) : Nat → List Char → List Char → List (List Char)
  | 0, acc, rest => [acc.reverse ++ rest]
  | _ + 1, acc, [] => [acc.reverse]
  | fuel + 1, acc, c :: rest =>
    if listIsPfx sep (c :: rest) then
      acc.reverse :: splitGo sep fuel [] ((c :: rest).drop sep.length)
    else splitGo sep fuel (c :: acc) rest

/-- `str::split(sep)` collected into a list (always nonempty, like Rust's). -/
def strSplitOn (s sep : String) : List String :=
  (splitGo sep.data (s.data.length + 1) [] s.data).map String.mk

def isSpaceChar (c : Char) : Bool :=
  c == ' ' || c == '\t' || c == '\n' || c == '\r'

/-- `str::trim` (ASCII whitespace). -/
def strTrim (s : String) : String :=
  String.mk (((s.data.dropWhile isSpaceChar).reverse.dropWhile isSpaceChar).reverse)

/-- `str::parse::<u32>()` as an `Option`. -/
def strToNatQ (s : String) : Option Nat :=
  if s.data ≠ [] ∧ s.data.all (fun c => decide (48 ≤ c.toNat ∧ c.toNat ≤ 57)) then
    let n := s.data.foldl (fun a c => 10 * a + (c.toNat - 48)) 0
    if n ≤ 4294967295 then some n else none
  else none

/-- `[T]::join(sep)` / `String.intercalate`, kernel-reducible. -/
def strJoin (sep : String) : List String → String
  | [] => ""
  | [x] => x
  | x :: y :: rest => x ++ sep ++ strJoin sep (y :: rest)

/-! ## BLAKE3 (single-chunk hashing, as used by `QuantumEntropy`)

The `blake3` crate's incremental `Hasher` is modelled for the single-chunk
inputs (≤ 1024 bytes) that `QuantumEntropy` produces: full 64-byte blocks
are compressed into the chaining value as input arrives (a trailing full
block is held back, exactly like the reference hasher), and `finalize`
compresses the held-back block with `CHUNK_END | ROOT`.  State tuples are
used instead of lists so that the kernel can evaluate digests efficiently;
the compression function returns the first 8 output words, the only part a
32-byte root digest uses. -/

abbrev W8 := Nat × Nat × Nat × Nat × Nat × Nat × Nat × Nat

abbrev W16 := Nat × Nat × Nat × Nat × Nat × Nat × Nat × Nat ×
  Nat × Nat × Nat × Nat × Nat × Nat × Nat × Nat

/-- The BLAKE3 quarter-round `g` on four state words and two message
words. -/
def g4 (a b c d mx my : Nat) : Nat × Nat × Nat × Nat :=
  let a := m32 (a + b + mx)
  let d := rotr32 (d ^^^ a) 16
  let c := m32 (c + d)
  let b := rotr32 (b ^^^ c) 12
  let a := m32 (a + b + my)
  let d := rotr32 (d ^^^ a) 8
  let c := m32 (c + d)
  let b := rotr32 (b ^^^ c) 7
  (a, b, c, d)

/-- One BLAKE3 round: `g` down the columns, then the diagonals. -/
def blakeRound (v m : W16) : W16 :=
  let (v0, v1, v2, v3, v4, v5, v6, v7, v8, v9, v10, v11, v12, v13, v14, v15) := v
  let (m0, m1, m2, m3, m4, m5, m6, m7, m8, m9, m10, m11, m12, m13, m14, m15) := m
  let (v0, v4, v8, v12) := g4 v0 v4 v8 v12 m0 m1
  let (v1, v5, v9, v13) := g4 v1 v5 v9 v13 m2 m3
  let (v2, v6, v10, v14) := g4 v2 v6 v10 v14 m4 m5
  let (v3, v7, v11, v15) := g4 v3 v7 v11 v15 m6 m7
  let (v0, v5, v10, v15) := g4 v0 v5 v10 v15 m8 m9
  let (v1, v6, v11, v12) := g4 v1 v6 v11 v12 m10 m11
  let (v2, v7, v8, v13) := g4 v2 v7 v8 v13 m12 m13
  let (v3, v4, v9, v14) := g4 v3 v4 v9 v14 m14 m15
  (v0, v1, v2, v3, v4, v5, v6, v7, v8, v9, v10, v11, v12, v13, v14, v15)

/-- The BLAKE3 message permutation
`[2, 6, 3, 10, 7, 0, 4, 13, 1, 11, 12, 5, 9, 14, 15, 8]`. -/
def permW16 (m : W16) : W16 :=
  let (m0, m1, m2, m3, m4, m5, m6, m7, m8, m9, m10, m11, m12, m13, m14, m15) := m
  (m2, m6, m3, m10, m7, m0, m4, m13, m1, m11, m12, m5, m9, m14, m15, m8)

/-- The BLAKE3 compression function (7 rounds), returning the first 8
output words `v[i] ^ v[i+8]` — the chaining value, and the first 32 bytes
of root output. -/
def blakeCompress (cv : W8) (m : W16) (counter blockLen flags : Nat) : W8 :=
  let (h0, h1, h2, h3, h4, h5, h6, h7) := cv
  let v : W16 := (h0, h1, h2, h3, h4, h5, h6, h7,
    0x6a09e667, 0xbb67ae85, 0x3c6ef372, 0xa54ff53a,
    m32 counter, m32 (counter >>> 32), blockLen, flags)
  let v := blakeRound v m
  let m := permW16 m
  let v := blakeRound v m
  let m := permW16 m
  let v := blakeRound v m
  let m := permW16 m
  let v := blakeRound v m
  let m := permW16 m
  let v := blakeRound v m
  let m := permW16 m
  let v := blakeRound v m
  let m := permW16 m
  let v := blakeRound v m
  let (x0, x1, x2, x3, x4, x5, x6, x7, x8, x9, x10, x11, x12, x13, x14, x15) := v
  (x0 ^^^ x8, x1 ^^^ x9, x2 ^^^ x10, x3 ^^^ x11,
   x4 ^^^ x12, x5 ^^^ x13, x6 ^^^ x14, x7 ^^^ x15)

/-- The 16 little-endian message words of a (zero-padded) 64-byte block. -/
def wordsOfBlock (b : List Nat) : W16 :=
  let p := b ++ List.replicate (64 - b.length) 0
  let w := fun i => leNat ((p.drop (4 * i)).take 4)
  (w 0, w 1, w 2, w 3, w 4, w 5, w 6, w 7, w 8, w 9, w 10, w 11, w 12, w 13,
   w 14, w 15)

def bIV : W8 :=
  (0x6a09e667, 0xbb67ae85, 0x3c6ef372, 0xa54ff53a,
   0x510e527f, 0x9b05688c, 0x1f83d9ab, 0x5be0cd19)

def bytesOfW8 (v : W8) : List Nat :=
  let (x0, x1, x2, x3, x4, x5, x6, x7) := v
  u32le x0 ++ u32le x1 ++ u32le x2 ++ u32le x3 ++ u32le x4 ++ u32le x5 ++
    u32le x6 ++ u32le x7

/-- The incremental hasher state: chaining value, number of blocks already
compressed, pending bytes (at most 64 once input is nonempty). -/
structure B3Hasher where
  cv : W8
  nblocks : Nat
  buf : List Nat

def b3New : B3Hasher := ⟨bIV, 0, []⟩

/-- `CHUNK_START` is set only on the chunk's first block. -/
def startFlag (nblocks : Nat) : Nat := if nblocks = 0 then 1 else 0

/-- Compress pending full blocks, holding back a trailing full block for
`finalize` (fuel-structured loop; fuel = pending length always suffices). -/
def b3Squash : Nat → B3Hasher → B3Hasher
  | 0, h => h
  | fuel + 1, h =>
    if 64 < h.buf.length then
      let cv2 := blakeCompress h.cv (wordsOfBlock (h.buf.take 64)) 0 64
        (startFlag h.nblocks)
      b3Squash fuel ⟨cv2, h.nblocks + 1, h.buf.drop 64⟩
    else h

/-- `Hasher::update`. -/
def b3Update (h : B3Hasher) (bytes : List Nat) : B3Hasher :=
  b3Squash (h.buf.length + bytes.length) ⟨h.cv, h.nblocks, h.buf ++ bytes⟩

/-- `Hasher::finalize` (32-byte root digest; non-destructive in the source,
so the caller keeps using the state it was called on). -/
def b3Finalize (h : B3Hasher) : List Nat :=
  bytesOfW8 (blakeCompress h.cv (wordsOfBlock h.buf) 0 h.buf.length
    (startFlag h.nblocks + 2 + 8))

/-- BLAKE3 digest of a whole single-chunk message. -/
def blake3Root (m : List Nat) : List Nat := b3Finalize (b3Update b3New m)

/-! ## SHA3-256 (Keccak-f[1600], rate 136) -/

abbrev K25 := Nat × Nat × Nat × Nat × Nat × Nat × Nat × Nat × Nat ×
  (Nat × Nat × Nat × Nat × Nat × Nat × Nat × Nat ×
  (Nat × Nat × Nat × Nat × Nat × Nat × Nat × Nat))

def keccakRC : List Nat :=
  [0x0000000000000001, 0x0000000000008082, 0x800000000000808a, 0x8000000080008000,
   0x000000000000808b, 0x0000000080000001, 0x8000000080008081, 0x8000000000008009,
   0x000000000000008a, 0x0000000000000088, 0x0000000080008009, 0x000000008000000a,
   0x000000008000808b, 0x800000000000008b, 0x8000000000008089, 0x8000000000008003,
   0x8000000000008002, 0x8000000000000080, 0x000000000000800a, 0x800000008000000a,
   0x8000000080008081, 0x8000000000008080, 0x0000000080000001, 0x8000000080008008]

/-- One Keccak-f round (θ, ρ, π, χ, ι) on the 25 lanes `a(x+5y)`, with the
standard rotation offsets baked in. -/
def keccakRound (A : K25) (rc : Nat) : K25 :=
  let (a0, a1, a2, a3, a4, a5, a6, a7, a8, a9, a10, a11, a12, a13, a14, a15,
    a16, a17, a18, a19, a20, a21, a22, a23, a24) := A
  let t0 := a0 ^^^ a5 ^^^ a10 ^^^ a15 ^^^ a20
  let t1 := a1 ^^^ a6 ^^^ a11 ^^^ a16 ^^^ a21
  let t2 := a2 ^^^ a7 ^^^ a12 ^^^ a17 ^^^ a22
  let t3 := a3 ^^^ a8 ^^^ a13 ^^^ a18 ^^^ a23
  let t4 := a4 ^^^ a9 ^^^ a14 ^^^ a19 ^^^ a24
  let d0 := t4 ^^^ rotl64 t1 1
  let d1 := t0 ^^^ rotl64 t2 1
  let d2 := t1 ^^^ rotl64 t3 1
  let d3 := t2 ^^^ rotl64 t4 1
  let d4 := t3 ^^^ rotl64 t0 1
  let a0 := a0 ^^^ d0
  let a1 := a1 ^^^ d1
  let a2 := a2 ^^^ d2
  let a3 := a3 ^^^ d3
  let a4 := a4 ^^^ d4
  let a5 := a5 ^^^ d0
  let a6 := a6 ^^^ d1
  let a7 := a7 ^^^ d2
  let a8 := a8 ^^^ d3
  let a9 := a9 ^^^ d4
  let a10 := a10 ^^^ d0
  let a11 := a11 ^^^ d1
  let a12 := a12 ^^^ d2
  let a13 := a13 ^^^ d3
  let a14 := a14 ^^^ d4
  let a15 := a15 ^^^ d0
  let a16 := a16 ^^^ d1
  let a17 := a17 ^^^ d2
  let a18 := a18 ^^^ d3
  let a19 := a19 ^^^ d4
  let a20 := a20 ^^^ d0
  let a21 := a21 ^^^ d1
  let a22 := a22 ^^^ d2
  let a23 := a23 ^^^ d3
  let a24 := a24 ^^^ d4
  let b0 := a0
  let b1 := rotl64 a6 44
  let b2 := rotl64 a12 43
  let b3 := rotl64 a18 21
  let b4 := rotl64 a24 14
  let b5 := rotl64 a3 28
  let b6 := rotl64 a9 20
  let b7 := rotl64 a10 3
  let b8 := rotl64 a16 45
  let b9 := rotl64 a22 61
  let b10 := rotl64 a1 1
  let b11 := rotl64 a7 6
  let b12 := rotl64 a13 25
  let b13 := rotl64 a19 8
  let b14 := rotl64 a20 18
  let b15 := rotl64 a4 27
  let b16 := rotl64 a5 36
  let b17 := rotl64 a11 10
  let b18 := rotl64 a17 15
  let b19 := rotl64 a23 56
  let b20 := rotl64 a2 62
  let b21 := rotl64 a8 55
  let b22 := rotl64 a14 39
  let b23 := rotl64 a15 41
  let b24 := rotl64 a21 2
  let c0 := b0 ^^^ ((b1 ^^^ 18446744073709551615) &&& b2)
  let c1 := b1 ^^^ ((b2 ^^^ 18446744073709551615) &&& b3)
  let c2 := b2 ^^^ ((b3 ^^^ 18446744073709551615) &&& b4)
  let c3 := b3 ^^^ ((b4 ^^^ 18446744073709551615) &&& b0)
  let c4 := b4 ^^^ ((b0 ^^^ 18446744073709551615) &&& b1)
  let c5 := b5 ^^^ ((b6 ^^^ 18446744073709551615) &&& b7)
  let c6 := b6 ^^^ ((b7 ^^^ 18446744073709551615) &&& b8)
  let c7 := b7 ^^^ ((b8 ^^^ 18446744073709551615) &&& b9)
  let c8 := b8 ^^^ ((b9 ^^^ 18446744073709551615) &&& b5)
  let c9 := b9 ^^^ ((b5 ^^^ 18446744073709551615) &&& b6)
  let c10 := b10 ^^^ ((b11 ^^^ 18446744073709551615) &&& b12)
  let c11 := b11 ^^^ ((b12 ^^^ 18446744073709551615) &&& b13)
  let c12 := b12 ^^^ ((b13 ^^^ 18446744073709551615) &&& b14)
  let c13 := b13 ^^^ ((b14 ^^^ 18446744073709551615) &&& b10)
  let c14 := b14 ^^^ ((b10 ^^^ 18446744073709551615) &&& b11)
  let c15 := b15 ^^^ ((b16 ^^^ 18446744073709551615) &&& b17)
  let c16 := b16 ^^^ ((b17 ^^^ 18446744073709551615) &&& b18)
  let c17 := b17 ^^^ ((b18 ^^^ 18446744073709551615) &&& b19)
  let c18 := b18 ^^^ ((b19 ^^^ 18446744073709551615) &&& b15)
  let c19 := b19 ^^^ ((b15 ^^^ 18446744073709551615) &&& b16)
  let c20 := b20 ^^^ ((b21 ^^^ 18446744073709551615) &&& b22)
  let c21 := b21 ^^^ ((b22 ^^^ 18446744073709551615) &&& b23)
  let c22 := b22 ^^^ ((b23 ^^^ 18446744073709551615) &&& b24)
  let c23 := b23 ^^^ ((b24 ^^^ 18446744073709551615) &&& b20)
  let c24 := b24 ^^^ ((b20 ^^^ 18446744073709551615) &&& b21)
  (c0 ^^^ rc, c1, c2, c3, c4, c5, c6, c7, c8, c9, c10, c11, c12, c13, c14,
   c15, c16, c17, c18, c19, c20, c21, c22, c23, c24)

def keccakF (A : K25) : K25 := keccakRC.foldl keccakRound A

def k25Zero : K25 :=
  (0, 0, 0, 0, 0, 0, 0, 0, 0, 0, 0, 0, 0, 0, 0, 0, 0, 0, 0, 0, 0, 0, 0, 0, 0)

/-- XOR a 136-byte rate block into the first 17 lanes and permute. -/
def sha3Absorb (A : K25) (block : List Nat) : K25 :=
  let ln := fun i => leNat ((block.drop (8 * i)).take 8)
  let (a0, a1, a2, a3, a4, a5, a6, a7, a8, a9, a10, a11, a12, a13, a14, a15,
    a16, a17, a18, a19, a20, a21, a22, a23, a24) := A
  keccakF (a0 ^^^ ln 0, a1 ^^^ ln 1, a2 ^^^ ln 2, a3 ^^^ ln 3, a4 ^^^ ln 4,
    a5 ^^^ ln 5, a6 ^^^ ln 6, a7 ^^^ ln 7, a8 ^^^ ln 8, a9 ^^^ ln 9,
    a10 ^^^ ln 10, a11 ^^^ ln 11, a12 ^^^ ln 12, a13 ^^^ ln 13, a14 ^^^ ln 14,
    a15 ^^^ ln 15, a16 ^^^ ln 16, a17, a18, a19, a20, a21, a22, a23, a24)

def bytesOfWords64 (ws : List Nat) : List Nat := ws.foldr (fun w acc => u64le w ++ acc) []

/-- SHA3-256 digest (32 bytes) of a byte list (`0x06` domain padding). -/
def sha3_256 (m : List Nat) : List Nat :=
  let r := m.length % 136
  let padded := if r = 135 then m ++ [0x86]
    else m ++ [0x06] ++ List.replicate (134 - r) 0 ++ [0x80]
  let A := (chunksOf 136 padded).foldl sha3Absorb k25Zero
  bytesOfWords64 [A.1, A.2.1, A.2.2.1, A.2.2.2.1]

/-! ### Hash validation against published test vectors

The BLAKE3 inputs are the official test-vector pattern (bytes
`0, 1, 2, …` mod 251); the expected digests are the published vectors, and
the SHA3-256 digests are standard. -/

example : blake3Root [] =
    [175, 19, 73, 185, 245, 249, 161, 166, 160, 64, 77, 234, 54, 220, 201, 73,
     155, 203, 37, 201, 173, 193, 18, 183, 204, 154, 147, 202, 228, 31, 50, 98] := by
  decide

example : blake3Root [0, 1, 2] =
    [225, 190, 77, 122, 138, 181, 86, 10, 164, 25, 158, 234, 51, 152, 73, 186,
     142, 41, 61, 85, 202, 10, 129, 0, 103, 38, 209, 132, 81, 158, 100, 127] := by
  decide

example : blake3Root ((List.range 127).map (· % 251)) =
    [216, 18, 147, 253, 168, 99, 240, 8, 192, 158, 146, 252, 56, 42, 129, 245,
     160, 180, 161, 37, 28, 186, 22, 52, 1, 106, 15, 134, 166, 189, 100, 13] := by
  decide

example : sha3_256 (strBytes "abc") =
    [58, 152, 93, 167, 79, 226, 37, 178, 4, 92, 23, 45, 107, 211, 144, 189,
     133, 95, 8, 110, 62, 157, 82, 91, 70, 191, 226, 69, 17, 67, 21, 50] := by
  decide

example : sha3_256 (List.range 200) =
    [95, 114, 143, 99, 191, 94, 228, 140, 119, 244, 83, 192, 73, 3, 152, 250,
     100, 91, 141, 76, 78, 86, 190, 154, 65, 207, 236, 52, 77, 108, 168, 153] := by
  decide

/-! ## QuantumEntropy (`QuantumEntropy` in `fingerprint.rs`)

The Rust struct keeps an incrementally updated BLAKE3 hasher and a round
counter. -/

structure QEState where
  h : B3Hasher
  round : Nat

/-- `QuantumEntropy::new(seed)`: absorb the seed's LE bytes and the fixed
application tag. -/
def qeInit (seed : Nat) : QEState :=
  ⟨b3Update b3New (u64le seed ++ strBytes "manifold-quantum-v1"), 0⟩

/-- `QuantumEntropy::next_u64(domain)`: absorb domain label and current round
counter, bump the counter, finalize BLAKE3, post-mix through SHA3-256
together with the (already bumped) counter, and read the first 8 bytes
little-endian. -/
def nextU64 (st : QEState) (domain : String) : QEState × Nat :=
  let h := b3Update st.h (strBytes domain ++ u64le st.round)
  let r := st.round + 1
  let expanded := b3Finalize h
  let digest := sha3_256 (expanded ++ u64le r)
  (⟨h, r⟩, leNat (digest.take 8))

/-- The 12-draw byte sum at the heart of `quantum_noise`. -/
def gaussSum (st : QEState) (domain : String) : QEState × Nat :=
  (List.range 12).foldl
    (fun p i =>
      let (st2, v) := nextU64 p.1 (domain ++ "-gauss-" ++ toString i)
      (st2, p.2 + v % 256))
    (st, 0)

/-- `f64::clamp` on exact rationals: below `lo` gives `lo`, above `hi` gives
`hi`.  (`clamp` returns its bound arguments themselves when it engages, so
its output bounds are exact whatever rounding produced its input.) -/
def ratClamp (x lo hi : ℚ) : ℚ := if x < lo then lo else if hi < x then hi else x

/-! ## IEEE-754 binary64 rounding

The tail arithmetic of `quantum_noise` runs in `f64`.  Most of its steps
are exact in `f64` — the sum is an integer below `2^53`, subtracting
`1536.0` and dividing by the power of two `256.0` are exact, `clamp` is
exact, and `clamped + 3.0` is exact (a fraction with denominator `256` and
numerator at most `1536`) — but the division by `6.0`, the subtraction
`max - min`, the product `t * (max - min)`, the final addition `min + _`,
and the decimal literals themselves each round once.  `fl64` models one
IEEE-754 binary64 rounding: round to nearest, ties to even, 53-bit
significand, unbounded exponent (every value reaching it here is normal
and far from overflow and underflow, where the model coincides with
`f64`). -/

/-- Fuel-driven `⌊log₂ n⌋` (structural recursion on the fuel; passing the
number itself as fuel always suffices, since `n < 2^n`). -/
def natLog2F (fuel n : Nat) : Nat :=
  match fuel with
  | 0 => 0
  | fuel + 1 => if n ≤ 1 then 0 else natLog2F fuel (n / 2) + 1

/-- `2^e` as a rational, for integer `e`. -/
def pow2Q (e : Int) : ℚ :=
  if 0 ≤ e then ((2 ^ e.toNat : Nat) : ℚ) else ((2 ^ (-e).toNat : Nat) : ℚ)⁻¹

/-- The binary exponent of a positive rational: the `e` with
`2^e ≤ q < 2^(e+1)`.  `⌊log₂ num⌋ - ⌊log₂ den⌋` is within one of the true
exponent, and the two comparisons settle it (`qExpFind_spec` below). -/
def qExpFind (q : ℚ) : Int :=
  let e0 : Int :=
    (natLog2F q.num.toNat q.num.toNat : Int) - (natLog2F q.den q.den : Int)
  if q < pow2Q e0 then e0 - 1
  else if pow2Q (e0 + 1) ≤ q then e0 + 1
  else e0

/-- Round a rational to the nearest integer, ties to even.  (`Int`
division in Lean is Euclidean, so `num / den` is `⌊·⌋` for every sign.) -/
def rndInt (m : ℚ) : Int :=
  let n : Int := m.num / (m.den : Int)
  let r : ℚ := m - (n : ℚ)
  if r < 1 / 2 then n
  else if 1 / 2 < r then n + 1
  else if n % 2 = 0 then n else n + 1

/-- Round a positive rational to 53 significant bits, nearest, ties to
even: scale so the significand lies in `[2^52, 2^53)` and round it to an
integer. -/
def fl64Pos (q : ℚ) : ℚ :=
  let e := qExpFind q
  ((rndInt (q * pow2Q (52 - e)) : ℤ) : ℚ) * pow2Q (e - 52)

/-- IEEE-754 binary64 rounding (round to nearest, ties to even) of an
exact rational. -/
def fl64 (q : ℚ) : ℚ :=
  if q = 0 then 0 else if q < 0 then -fl64Pos (-q) else fl64Pos q

/-- The arithmetic tail of `quantum_noise`, in the program's `f64`
semantics: recenter the 12-byte sum and clamp to ±3 (exact in `f64`, see
above), then round once at each genuinely inexact step — the division by
`6.0`, the subtraction `max - min`, the product `t * (max - min)` and the
final addition.  `mn` and `mx` arrive as the already-rounded `f64` values
of the caller's decimal literals. -/
def noiseFromSum (sum : Nat) (mn mx : ℚ) : ℚ :=
  let normalized : ℚ := ((sum : ℚ) - 1536) / 256
  let clamped := ratClamp normalized (-3) 3
  let t := fl64 ((clamped + 3) / 6)
  fl64 (mn + fl64 (t * fl64 (mx - mn)))

/-- The largest audio-channel noise the program can produce: the `+3σ`
clamp case (any 12-byte sum of at least `2304`) of
`quantum_noise("audio", 0.001, 0.010)`.  In `f64`,
`0.001 + 1.0 * (0.010 - 0.001)` rounds to `fl64 0.010 + 2⁻⁵⁹`
(`0.010000000000000002`), one ulp ABOVE the configured upper bound. -/
def audioNoiseMax : ℚ := noiseFromSum 2304 (fl64 0.001) (fl64 0.010)

/-- `QuantumEntropy::quantum_noise(domain, min, max)`. -/
def quantumNoise (st : QEState) (domain : String) (mn mx : ℚ) : QEState × ℚ :=
  let (st2, sum) := gaussSum st domain
  (st2, noiseFromSum sum mn mx)

/-! ## The `SmallRng` oracle

`rand::rngs::SmallRng` draws are modelled as an oracle stream (see the file
header).  `RngO.mk (G s) 0` corresponds to `SmallRng::seed_from_u64(s)`. -/

structure RngO where
  g : Nat → Nat
  k : Nat

/-- `rng.gen_range(lo..hi)`: one draw, arbitrary value in `[lo, hi)`. -/
def genRange (r : RngO) (lo hi : Nat) : RngO × Nat :=
  (⟨r.g, r.k + 1⟩, lo + r.g r.k % (hi - lo))

/-- `rng.gen_range(lo..=hi)` (inclusive upper bound). -/
def genRangeI (r : RngO) (lo hi : Nat) : RngO × Nat := genRange r lo (hi + 1)

/-- `rng.gen_bool(p)`: one draw, arbitrary boolean outcome (the probability
argument is kept for call-site fidelity but cannot influence which outcomes
are possible). -/
def genBool (r : RngO) (_p : ℚ) : RngO × Bool :=
  (⟨r.g, r.k + 1⟩, r.g r.k % 2 == 0)

/-- `rng.gen::<u32>()`: one draw, arbitrary 32-bit value. -/
def genU32 (r : RngO) : RngO × Nat := (⟨r.g, r.k + 1⟩, r.g r.k % 4294967296)

/-! ## Data model (`Fingerprint` and friends) -/

structure UaBrand where
  brand : String
  version : String
deriving DecidableEq

inductive WebRtcMode where
  | block
  | fakeMdns
  | passthrough
deriving DecidableEq

/-- Full browser fingerprint configuration (`Fingerprint` in
`fingerprint.rs`).  The permissions `HashMap` is modelled as the association
list in insertion order. -/
structure Fingerprint where
  seed : Nat
  canvas_noise : ℚ
  webgl_vendor : String
  webgl_renderer : String
  webgl_noise : ℚ
  audio_noise : ℚ
  font_subset : List String
  user_agent : String
  platform : String
  accept_language : String
  hardware_concurrency : Nat
  device_memory : ℚ
  screen_width : Nat
  screen_height : Nat
  viewport_width : Nat
  viewport_height : Nat
  color_depth : Nat
  pixel_ratio : ℚ
  webrtc_mode : WebRtcMode
  webrtc_fake_mdns : Option String
  webrtc_fake_ip : Option String
  timezone : String
  locale : String
  ua_brands : List UaBrand
  ua_mobile : Bool
  ua_platform : String
  ua_platform_version : String
  ua_architecture : String
  ua_bitness : String
  permissions : List (String × String)
deriving DecidableEq

/-! ## Generator helpers (`FingerprintOrchestrator`'s private functions) -/

/-- `pick_os`: weighted Windows ≈70 %, macOS ≈25 %, Linux ≈5 %. -/
def pickOs (r : RngO) : RngO × String :=
  let (r, v) := genRange r 0 20
  (r, if v ≤ 13 then "windows" else if v ≤ 18 then "macos" else "linux")

/-- `build_ua`: returns
`(user_agent, platform, ua_platform, ua_platform_version, ua_architecture, ua_bitness)`. -/
def buildUa (r : RngO) (os : String) :
    RngO × (String × String × String × String × String × String) :=
  let (r, w) := genRange r 0 100
  let chrome_major :=
    if w ≤ 9 then 124 else if w ≤ 19 then 125 else if w ≤ 29 then 126
    else if w ≤ 39 then 127 else if w ≤ 49 then 128 else if w ≤ 59 then 129
    else if w ≤ 64 then 130 else if w ≤ 72 then 131 else if w ≤ 80 then 132
    else if w ≤ 87 then 133 else if w ≤ 93 then 134 else if w ≤ 96 then 135
    else 136
  let (r, chrome_minor) := genRangeI r 0 9999
  let (r, chrome_build) := genRangeI r 0 999
  let chromePart := toString chrome_major ++ ".0." ++ toString chrome_minor ++ "." ++
    toString chrome_build
  match os with
  | "macos" =>
    let (r, sel) := genRange r 0 10
    let mac_major := if sel ≤ 2 then 13 else if sel ≤ 6 then 14 else 15
    let mac_minor_max := if sel ≤ 2 then 6 else if sel ≤ 6 then 7 else 3
    let (r, mac_minor) := genRangeI r 0 mac_minor_max
    let (r, mac_patch) := genRangeI r 0 3
    let (r, uv) := genRangeI r 7 9
    let mac_ua_ver := "10_15_" ++ toString uv
    let ua := "Mozilla/5.0 (Macintosh; Intel Mac OS X " ++ mac_ua_ver ++
      ") AppleWebKit/537.36 (KHTML, like Gecko) Chrome/" ++ chromePart ++ " Safari/537.36"
    let platform_ver := toString mac_major ++ "." ++ toString mac_minor ++ "." ++
      toString mac_patch
    (r, (ua, "MacIntel", "macOS", platform_ver, "arm", "64"))
  | "linux" =>
    let (r, kv) := genRange r 0 6
    let kernel := if kv = 0 then "5.15.0" else if kv = 1 then "5.19.0"
      else if kv = 2 then "6.1.0" else if kv = 3 then "6.5.0"
      else if kv = 4 then "6.8.0" else "6.11.0"
    let ua := "Mozilla/5.0 (X11; Linux x86_64) AppleWebKit/537.36 (KHTML, like Gecko) Chrome/" ++
      chromePart ++ " Safari/537.36"
    (r, (ua, "Linux x86_64", "Linux", kernel, "x86", "64"))
  | _ =>
    let (r, sel) := genRange r 0 10
    let pwb :=
      if sel ≤ 3 then genRangeI r 19041 19045
      else if sel ≤ 7 then genRangeI r 22000 22631
      else genRangeI r 26100 26200
    let r := pwb.1
    let win_build := pwb.2
    let ua := "Mozilla/5.0 (Windows NT 10.0; Win64; x64) AppleWebKit/537.36 (KHTML, like Gecko) Chrome/" ++
      chromePart ++ " Safari/537.36"
    let platform_ver := "0.0." ++ toString win_build
    (r, (ua, "Win32", "Windows", platform_ver, "x86", "64"))

def greaseChars : List Char :=
  [' ', '(', ')', '-', '.', '/', ':', ';', '=', '?', '_']

def greaseSuffixes : List String := ["A)Brand", "B)Brand", "X)Brand", "Y)Brand"]

/-- `build_ua_brands`: GREASE + Chromium + Google Chrome, GREASE first or
last. -/
def buildUaBrands (r : RngO) (user_agent : String) : RngO × List UaBrand :=
  let major := (strToNatQ ((strSplitOn ((strSplitOn user_agent "Chrome/").getD 1 "")
    ".").headD "")).getD 136
  let (r, ci) := genRange r 0 greaseChars.length
  let gc := greaseChars.getD ci ' '
  let (r, si) := genRange r 0 greaseSuffixes.length
  let gs := greaseSuffixes.getD si ""
  let gv := if major % 3 = 0 then 8 else if major % 3 = 1 then 24 else 99
  let grease_brand : UaBrand := ⟨"Not" ++ String.singleton gc ++ gs, toString gv⟩
  let chromium_brand : UaBrand := ⟨"Chromium", toString major⟩
  let chrome_brand : UaBrand := ⟨"Google Chrome", toString major⟩
  let (r, b) := genBool r (50 / 100)
  (r, if b then [grease_brand, chromium_brand, chrome_brand]
      else [chromium_brand, chrome_brand, grease_brand])

def webglOptions (os : String) : List (String × String) :=
  match os with
  | "macos" =>
    [("Apple", "Apple M1"), ("Apple", "Apple M1 Pro"), ("Apple", "Apple M2"),
     ("Apple", "Apple M2 Pro"), ("Apple", "Apple M3"), ("Apple", "Apple M3 Pro"),
     ("Apple", "Apple M4"),
     ("Intel Inc.", "Intel(R) Iris(TM) Plus Graphics 640"),
     ("Intel Inc.", "Intel(R) UHD Graphics 630"),
     ("Intel Inc.", "Intel(R) Iris(TM) Plus Graphics 655")]
  | "linux" =>
    [("Mesa/X.org", "Mesa Intel(R) UHD Graphics 620 (KBL GT2)"),
     ("Mesa/X.org", "Mesa Intel(R) UHD Graphics 630 (CFL GT2)"),
     ("Mesa/X.org", "Mesa Intel(R) HD Graphics 630 (KBL GT2)"),
     ("Mesa/X.org", "Mesa Intel(R) Xe Graphics (TGL GT2)"),
     ("NVIDIA Corporation", "NVIDIA GeForce RTX 3060/PCIe/SSE2"),
     ("NVIDIA Corporation", "NVIDIA GeForce RTX 4070/PCIe/SSE2"),
     ("AMD", "AMD Radeon RX 6700 XT (radeonsi, navi22, LLVM 15.0.7, DRM 3.54)"),
     ("Intel Open Source Technology Center", "Mesa DRI Intel(R) HD Graphics 620 (Kaby Lake GT2)")]
  | _ =>
    [("Google Inc. (NVIDIA)", "ANGLE (NVIDIA, NVIDIA GeForce GTX 1660 SUPER Direct3D11 vs_5_0 ps_5_0, D3D11)"),
     ("Google Inc. (NVIDIA)", "ANGLE (NVIDIA, NVIDIA GeForce RTX 2060 Direct3D11 vs_5_0 ps_5_0, D3D11)"),
     ("Google Inc. (NVIDIA)", "ANGLE (NVIDIA, NVIDIA GeForce RTX 3060 Direct3D11 vs_5_0 ps_5_0, D3D11)"),
     ("Google Inc. (NVIDIA)", "ANGLE (NVIDIA, NVIDIA GeForce RTX 3060 Ti Direct3D11 vs_5_0 ps_5_0, D3D11)"),
     ("Google Inc. (NVIDIA)", "ANGLE (NVIDIA, NVIDIA GeForce RTX 3070 Direct3D11 vs_5_0 ps_5_0, D3D11)"),
     ("Google Inc. (NVIDIA)", "ANGLE (NVIDIA, NVIDIA GeForce RTX 3080 Direct3D11 vs_5_0 ps_5_0, D3D11)"),
     ("Google Inc. (NVIDIA)", "ANGLE (NVIDIA, NVIDIA GeForce RTX 4060 Direct3D11 vs_5_0 ps_5_0, D3D11)"),
     ("Google Inc. (NVIDIA)", "ANGLE (NVIDIA, NVIDIA GeForce RTX 4070 Direct3D11 vs_5_0 ps_5_0, D3D11)"),
     ("Google Inc. (NVIDIA)", "ANGLE (NVIDIA, NVIDIA GeForce RTX 4070 Ti Direct3D11 vs_5_0 ps_5_0, D3D11)"),
     ("Google Inc. (NVIDIA)", "ANGLE (NVIDIA, NVIDIA GeForce RTX 4080 Direct3D11 vs_5_0 ps_5_0, D3D11)"),
     ("Google Inc. (NVIDIA)", "ANGLE (NVIDIA, NVIDIA GeForce RTX 4090 Direct3D11 vs_5_0 ps_5_0, D3D11)"),
     ("Google Inc. (NVIDIA)", "ANGLE (NVIDIA, NVIDIA GeForce RTX 3050 Laptop GPU Direct3D11 vs_5_0 ps_5_0, D3D11)"),
     ("Google Inc. (NVIDIA)", "ANGLE (NVIDIA, NVIDIA GeForce RTX 4060 Laptop GPU Direct3D11 vs_5_0 ps_5_0, D3D11)"),
     ("Google Inc. (AMD)", "ANGLE (AMD, AMD Radeon RX 6600 XT Direct3D11 vs_5_0 ps_5_0, D3D11)"),
     ("Google Inc. (AMD)", "ANGLE (AMD, AMD Radeon RX 6700 XT Direct3D11 vs_5_0 ps_5_0, D3D11)"),
     ("Google Inc. (AMD)", "ANGLE (AMD, AMD Radeon RX 6800 XT Direct3D11 vs_5_0 ps_5_0, D3D11)"),
     ("Google Inc. (AMD)", "ANGLE (AMD, AMD Radeon RX 7600 Direct3D11 vs_5_0 ps_5_0, D3D11)"),
     ("Google Inc. (AMD)", "ANGLE (AMD, AMD Radeon RX 7700 XT Direct3D11 vs_5_0 ps_5_0, D3D11)"),
     ("Google Inc. (AMD)", "ANGLE (AMD, AMD Radeon RX 7900 XT Direct3D11 vs_5_0 ps_5_0, D3D11)"),
     ("Google Inc. (Intel)", "ANGLE (Intel, Intel(R) Arc(TM) A770 Graphics Direct3D11 vs_5_0 ps_5_0, D3D11)"),
     ("Google Inc. (Intel)", "ANGLE (Intel, Intel(R) Arc(TM) A750 Graphics Direct3D11 vs_5_0 ps_5_0, D3D11)"),
     ("Google Inc. (Intel)", "ANGLE (Intel, Intel(R) UHD Graphics 770 Direct3D11 vs_5_0 ps_5_0, D3D11)"),
     ("Google Inc. (Intel)", "ANGLE (Intel, Intel(R) UHD Graphics 730 Direct3D11 vs_5_0 ps_5_0, D3D11)"),
     ("Google Inc. (Intel)", "ANGLE (Intel, Intel(R) Iris(R) Xe Graphics Direct3D11 vs_5_0 ps_5_0, D3D11)")]

/-- `pick_webgl`: joint vendor/renderer pick from the OS-specific catalog. -/
def pickWebgl (r : RngO) (os : String) : RngO × (String × String) :=
  let options := webglOptions os
  let (r, i) := genRange r 0 options.length
  (r, options.getD i ("", ""))

/-- The weighted screen pool: `(width, height, weight, dpr)`. -/
def screenPool : List (Nat × Nat × Nat × ℚ) :=
  [(1920, 1080, 30, 1.0), (1920, 1080, 10, 1.25), (2560, 1440, 14, 1.0),
   (2560, 1440, 6, 1.5), (1366, 768, 8, 1.0), (1536, 864, 6, 1.25),
   (1440, 900, 4, 1.0), (1280, 800, 3, 1.0), (3840, 2160, 5, 2.0),
   (3840, 2160, 3, 1.5), (2560, 1600, 4, 2.0), (2880, 1800, 3, 2.0),
   (1680, 1050, 2, 1.0), (1600, 900, 2, 1.0)]

/-- The weighted-find loop of `pick_screen` (`find` with a decreasing pick,
`unwrap_or(&screens[0])`). -/
def weightedFind : List (Nat × Nat × Nat × ℚ) → Nat → Option (Nat × Nat × Nat × ℚ)
  | [], _ => none
  | e :: rest, p => if p < e.2.2.1 then some e else weightedFind rest (p - e.2.2.1)

/-- `pick_screen`: returns
`(screen_width, screen_height, viewport_width, viewport_height, pixel_ratio)`. -/
def pickScreen (r : RngO) : RngO × (Nat × Nat × Nat × Nat × ℚ) :=
  let total := (screenPool.map (fun s => s.2.2.1)).sum
  let (r, p) := genRange r 0 total
  let e := (weightedFind screenPool p).getD (screenPool.headD (0, 0, 0, 1.0))
  let (r, ch) := genRange r 0 25
  let chrome_h := 72 + ch
  let (r, tb) := genRange r 0 12
  let taskbar_h := 36 + tb
  let vw := e.1
  let vh := e.2.1 - (chrome_h + taskbar_h)
  (r, (e.1, e.2.1, vw, vh, e.2.2.2))

def baselineFonts : List String :=
  ["Arial", "Arial Black", "Comic Sans MS", "Courier New", "Georgia", "Impact",
   "Times New Roman", "Trebuchet MS", "Verdana", "Webdings"]

def osExtraFonts (os : String) : List String :=
  match os with
  | "macos" =>
    ["Helvetica", "Helvetica Neue", "Gill Sans", "Optima", "Palatino", "Futura",
     "Menlo", "Monaco", "Apple Chancery"]
  | "linux" =>
    ["Liberation Sans", "Liberation Serif", "Liberation Mono", "DejaVu Sans",
     "DejaVu Serif", "Ubuntu", "Cantarell", "Noto Sans"]
  | _ =>
    ["Calibri", "Cambria", "Candara", "Consolas", "Constantia", "Corbel",
     "Franklin Gothic Medium", "Gabriola", "Segoe UI", "Tahoma",
     "Microsoft Sans Serif", "Palatino Linotype"]

/-- Swap two positions of a list (no-op when out of bounds). -/
def swapL (l : List α) (i j : Nat) : List α :=
  match l.get? i, l.get? j with
  | some a, some b => (l.set i b).set j a
  | _, _ => l

/-- `rand`'s Fisher–Yates `shuffle`: for `i` from `len-1` down to `1`, swap
`i` with `gen_range(0..=i)`. -/
def shuffleGo (r : RngO) (l : List α) : Nat → RngO × List α
  | 0 => (r, l)
  | i + 1 =>
    let (r2, j) := genRangeI r 0 (i + 1)
    shuffleGo r2 (swapL l (i + 1) j) i

def shuffleList (r : RngO) (l : List α) : RngO × List α := shuffleGo r l (l.length - 1)

/-- `build_font_subset`: baseline plus ~75 %-thinned OS extras, shuffled. -/
def buildFontSubset (r : RngO) (os : String) : RngO × List String :=
  let step := (osExtraFonts os).foldl
    (fun (p : RngO × List String) f =>
      let (r2, keep) := genBool p.1 (75 / 100)
      (r2, if keep then p.2 ++ [f] else p.2))
    (r, baselineFonts)
  shuffleList step.1 step.2

/-- The joint locale / accept-language / timezone pool of `pick_locale`. -/
def localePool : List (String × String × String) :=
  [("en-US", "en-US,en;q=0.9", "America/New_York"),
   ("en-US", "en-US,en;q=0.9", "America/Chicago"),
   ("en-US", "en-US,en;q=0.9", "America/Los_Angeles"),
   ("en-US", "en-US,en;q=0.9", "America/Denver"),
   ("en-GB", "en-GB,en;q=0.9", "Europe/London"),
   ("en-AU", "en-AU,en;q=0.9", "Australia/Sydney"),
   ("en-CA", "en-CA,en;q=0.9,fr-CA;q=0.8", "America/Toronto"),
   ("de-DE", "de-DE,de;q=0.9,en;q=0.8", "Europe/Berlin"),
   ("fr-FR", "fr-FR,fr;q=0.9,en;q=0.8", "Europe/Paris"),
   ("es-ES", "es-ES,es;q=0.9,en;q=0.8", "Europe/Madrid"),
   ("nl-NL", "nl-NL,nl;q=0.9,en;q=0.8", "Europe/Amsterdam"),
   ("pl-PL", "pl-PL,pl;q=0.9,en;q=0.8", "Europe/Warsaw"),
   ("pt-BR", "pt-BR,pt;q=0.9,en;q=0.8", "America/Sao_Paulo"),
   ("ja-JP", "ja-JP,ja;q=0.9,en;q=0.8", "Asia/Tokyo"),
   ("ko-KR", "ko-KR,ko;q=0.9,en;q=0.8", "Asia/Seoul")]

def pickLocale (r : RngO) : RngO × (String × String × String) :=
  let (r, i) := genRange r 0 localePool.length
  (r, localePool.getD i ("", "", ""))

def hexDigitChar (n : Nat) : Char :=
  if n < 10 then Char.ofNat (48 + n) else Char.ofNat (87 + n)

/-- Zero-padded lowercase hex of width `w` (the `{:08x}` / `{:04x}` format
specifiers). -/
def hexPad (w n : Nat) : String :=
  String.mk (((List.range w).reverse).map (fun i => hexDigitChar (n / 16 ^ i % 16)))

/-- `generate_mdns_hostname`: UUID-v4-shaped hostname with `.local` suffix. -/
def mdnsHostname (r : RngO) : RngO × String :=
  let (r, a) := genU32 r
  let (r, b) := genU32 r
  let (r, c) := genU32 r
  let (r, d) := genU32 r
  let b0 := a
  let b1 := (b &&& 0xffff0fff) ||| 0x00004000
  let b2 := (c &&& 0x3fffffff) ||| 0x80000000
  let b3 := d
  (r, hexPad 8 b0 ++ "-" ++ hexPad 4 ((b1 >>> 16) &&& 0xffff) ++ "-" ++
    hexPad 4 (b1 &&& 0xffff) ++ "-" ++ hexPad 4 ((b2 >>> 16) &&& 0xffff) ++ "-" ++
    hexPad 4 (b2 &&& 0xffff) ++ hexPad 8 b3 ++ ".local")

/-- `generate_fake_local_ip`: `192.168.{1..=254}.{2..=254}`. -/
def fakeLocalIp (r : RngO) : RngO × String :=
  let (r, a) := genRangeI r 1 254
  let (r, b) := genRangeI r 2 254
  (r, "192.168." ++ toString a ++ "." ++ toString b)

/-- `default_permissions` (the `HashMap` as insertion-order pairs). -/
def defaultPermissions (r : RngO) : RngO × List (String × String) :=
  let (r, cb) := genBool r (60 / 100)
  (r, [("geolocation", "prompt"), ("notifications", "prompt"), ("camera", "prompt"),
       ("microphone", "prompt"),
       ("clipboard-read", if cb then "prompt" else "granted"),
       ("clipboard-write", "granted"), ("payment-handler", "prompt"),
       ("accelerometer", "granted"), ("gyroscope", "granted"),
       ("magnetometer", "granted"), ("push", "prompt"), ("midi", "prompt"),
       ("storage-access", "prompt")])

/-! ## `FingerprintOrchestrator::generate` and secondary operations -/

/-! `generate(seed)` is written as a pipeline of named stages (the `genXxxP`
definitions below), each carrying the RNG state produced by the previous one
— the same sequential dataflow as the Rust function body, with the oracle
family `G` supplying every `SmallRng` draw stream (`G s` = stream of the
instance seeded with `s`).  The noise channels use the `QuantumEntropy`
chain and are a concrete function of `seed` alone. -/

/-- `qe.next_u64("rng-seed")` — the first entropy draw of `generate`. -/
def genQ1 (seed : Nat) : QEState × Nat := nextU64 (qeInit seed) "rng-seed"

/-- `SmallRng::seed_from_u64(expanded_seed)`. -/
def genStage0 (seed : Nat) (G : Nat → Nat → Nat) : RngO := ⟨G (genQ1 seed).2, 0⟩

def genOsP (seed : Nat) (G : Nat → Nat → Nat) : RngO × String :=
  pickOs (genStage0 seed G)

def genUaP (seed : Nat) (G : Nat → Nat → Nat) :
    RngO × (String × String × String × String × String × String) :=
  buildUa (genOsP seed G).1 (genOsP seed G).2

def genBrandsP (seed : Nat) (G : Nat → Nat → Nat) : RngO × List UaBrand :=
  buildUaBrands (genUaP seed G).1 (genUaP seed G).2.1

def genWebglP (seed : Nat) (G : Nat → Nat → Nat) : RngO × (String × String) :=
  pickWebgl (genBrandsP seed G).1 (genOsP seed G).2

def genScreenP (seed : Nat) (G : Nat → Nat → Nat) : RngO × (Nat × Nat × Nat × Nat × ℚ) :=
  pickScreen (genWebglP seed G).1

def genFontsP (seed : Nat) (G : Nat → Nat → Nat) : RngO × List String :=
  buildFontSubset (genScreenP seed G).1 (genOsP seed G).2

def genLocaleP (seed : Nat) (G : Nat → Nat → Nat) : RngO × (String × String × String) :=
  pickLocale (genFontsP seed G).1

def genMdnsP (seed : Nat) (G : Nat → Nat → Nat) : RngO × String :=
  mdnsHostname (genLocaleP seed G).1

def genIpP (seed : Nat) (G : Nat → Nat → Nat) : RngO × String :=
  fakeLocalIp (genMdnsP seed G).1

def genHcP (seed : Nat) (G : Nat → Nat → Nat) : RngO × Nat :=
  genRange (genIpP seed G).1 0 7

def genDmP (seed : Nat) (G : Nat → Nat → Nat) : RngO × Nat :=
  genRange (genHcP seed G).1 0 6

/-- The three noise-channel draws (entropy rounds 1–12, 13–24, 25–36).
The decimal literals of the source are `f64` constants, so they enter the
model through `fl64`. -/
def genCanvasP (seed : Nat) : QEState × ℚ :=
  quantumNoise (genQ1 seed).1 "canvas" (fl64 0.01) (fl64 0.15)

def genWebglNoiseP (seed : Nat) : QEState × ℚ :=
  quantumNoise (genCanvasP seed).1 "webgl" (fl64 0.01) (fl64 0.10)

def genAudioP (seed : Nat) : QEState × ℚ :=
  quantumNoise (genWebglNoiseP seed).1 "audio" (fl64 0.001) (fl64 0.010)

def genPermsP (seed : Nat) (G : Nat → Nat → Nat) : RngO × List (String × String) :=
  defaultPermissions (genDmP seed G).1

/-- `FingerprintOrchestrator::generate`. -/
def generate (seed : Nat) (G : Nat → Nat → Nat) : Fingerprint :=
  { seed := seed
    canvas_noise := (genCanvasP seed).2
    webgl_vendor := (genWebglP seed G).2.1
    webgl_renderer := (genWebglP seed G).2.2
    webgl_noise := (genWebglNoiseP seed).2
    audio_noise := (genAudioP seed).2
    font_subset := (genFontsP seed G).2
    user_agent := (genUaP seed G).2.1
    platform := (genUaP seed G).2.2.1
    accept_language := (genLocaleP seed G).2.2.1
    hardware_concurrency := ([2, 4, 4, 8, 8, 8, 16].getD (genHcP seed G).2 4 : Nat)
    device_memory := ([0.5, 1.0, 2.0, 4.0, 4.0, 8.0].getD (genDmP seed G).2 4.0 : ℚ)
    screen_width := (genScreenP seed G).2.1
    screen_height := (genScreenP seed G).2.2.1
    viewport_width := (genScreenP seed G).2.2.2.1
    viewport_height := (genScreenP seed G).2.2.2.2.1
    color_depth := 24
    pixel_ratio := (genScreenP seed G).2.2.2.2.2
    webrtc_mode := .fakeMdns
    webrtc_fake_mdns := some (genMdnsP seed G).2
    webrtc_fake_ip := some (genIpP seed G).2
    timezone := (genLocaleP seed G).2.2.2
    locale := (genLocaleP seed G).2.1
    ua_brands := (genBrandsP seed G).2
    ua_mobile := false
    ua_platform := (genUaP seed G).2.2.2.1
    ua_platform_version := (genUaP seed G).2.2.2.2.1
    ua_architecture := (genUaP seed G).2.2.2.2.2.1
    ua_bitness := (genUaP seed G).2.2.2.2.2.2
    permissions := (genPermsP seed G).2 }

/-- `reseed(fp, new_seed)` ignores the old fingerprint entirely. -/
def reseed (_fp : Fingerprint) (new_seed : Nat) (G : Nat → Nat → Nat) : Fingerprint :=
  generate new_seed G

/-! `mutate(fp)` re-derives the three noise deltas from `seed + 1`
(`wrapping_add(1)`) and clamps.  The delta draws are staged like those of
`generate`; each is a function of the seed alone. -/

def mutateQ0 (seed : Nat) : QEState := qeInit ((seed + 1) % 18446744073709551616)

def mutateCanvasD (seed : Nat) : QEState × ℚ :=
  quantumNoise (mutateQ0 seed) "mutate-canvas" (fl64 (-0.01)) (fl64 0.01)

def mutateWebglD (seed : Nat) : QEState × ℚ :=
  quantumNoise (mutateCanvasD seed).1 "mutate-webgl" (fl64 (-0.005)) (fl64 0.005)

def mutateAudioD (seed : Nat) : QEState × ℚ :=
  quantumNoise (mutateWebglD seed).1 "mutate-audio" (fl64 (-0.001)) (fl64 0.001)

/-- `FingerprintOrchestrator::mutate`.  The outer add-and-clamp is kept in
exact rationals: `clamp` hands back its bound arguments themselves when it
engages, so the clamp-range facts proved below are exact facts of the
`f64` program however the addition rounds. -/
def mutate (fp : Fingerprint) : Fingerprint :=
  { fp with
    canvas_noise := ratClamp (fp.canvas_noise + (mutateCanvasD fp.seed).2) 0.005 0.30
    audio_noise := ratClamp (fp.audio_noise + (mutateAudioD fp.seed).2) 0.001 0.05
    webgl_noise := ratClamp (fp.webgl_noise + (mutateWebglD fp.seed).2) 0.005 0.15 }

/-- The per-country locale/accept-language/timezone catalog of
`enforce_geo` (`GEO_LOCALE_MAP`); `none` is the `_ => return` fallback arm. -/
def geoCatalog (cc : String) : Option (List (String × String × String)) :=
  match cc with
  | "US" => some
    [("en-US", "en-US,en;q=0.9", "America/New_York"),
     ("en-US", "en-US,en;q=0.9", "America/Chicago"),
     ("en-US", "en-US,en;q=0.9", "America/Los_Angeles"),
     ("en-US", "en-US,en;q=0.9", "America/Denver")]
  | "GB" => some [("en-GB", "en-GB,en;q=0.9", "Europe/London")]
  | "CA" => some
    [("en-CA", "en-CA,en;q=0.9,fr-CA;q=0.8", "America/Toronto"),
     ("en-CA", "en-CA,en;q=0.9", "America/Vancouver"),
     ("fr-CA", "fr-CA,fr;q=0.9,en-CA;q=0.8", "America/Montreal")]
  | "AU" => some
    [("en-AU", "en-AU,en;q=0.9", "Australia/Sydney"),
     ("en-AU", "en-AU,en;q=0.9", "Australia/Melbourne"),
     ("en-AU", "en-AU,en;q=0.9", "Australia/Brisbane")]
  | "DE" => some [("de-DE", "de-DE,de;q=0.9,en;q=0.8", "Europe/Berlin")]
  | "FR" => some [("fr-FR", "fr-FR,fr;q=0.9,en;q=0.8", "Europe/Paris")]
  | "ES" => some [("es-ES", "es-ES,es;q=0.9,en;q=0.8", "Europe/Madrid")]
  | "IT" => some [("it-IT", "it-IT,it;q=0.9,en;q=0.8", "Europe/Rome")]
  | "NL" => some [("nl-NL", "nl-NL,nl;q=0.9,en;q=0.8", "Europe/Amsterdam")]
  | "PL" => some [("pl-PL", "pl-PL,pl;q=0.9,en;q=0.8", "Europe/Warsaw")]
  | "BR" => some
    [("pt-BR", "pt-BR,pt;q=0.9,en;q=0.8", "America/Sao_Paulo"),
     ("pt-BR", "pt-BR,pt;q=0.9,en;q=0.8", "America/Fortaleza")]
  | "JP" => some [("ja-JP", "ja-JP,ja;q=0.9,en;q=0.8", "Asia/Tokyo")]
  | "KR" => some [("ko-KR", "ko-KR,ko;q=0.9,en;q=0.8", "Asia/Seoul")]
  | "IN" => some [("en-IN", "en-IN,en;q=0.9,hi;q=0.8", "Asia/Kolkata")]
  | "SG" => some [("en-SG", "en-SG,en;q=0.9", "Asia/Singapore")]
  | "HK" => some [("zh-HK", "zh-HK,zh;q=0.9,en;q=0.8", "Asia/Hong_Kong")]
  | "SE" => some [("sv-SE", "sv-SE,sv;q=0.9,en;q=0.8", "Europe/Stockholm")]
  | "NO" => some [("nb-NO", "nb-NO,nb;q=0.9,en;q=0.8", "Europe/Oslo")]
  | "CH" => some
    [("de-CH", "de-CH,de;q=0.9,en;q=0.8", "Europe/Zurich"),
     ("fr-CH", "fr-CH,fr;q=0.9,de-CH;q=0.8", "Europe/Zurich")]
  | "MX" => some [("es-MX", "es-MX,es;q=0.9,en;q=0.8", "America/Mexico_City")]
  | _ => none

/-- The `allow_4k` gate inside `enforce_geo`. -/
def geoAllow4k (cc : String) : Bool :=
  match cc with
  | "US" | "JP" | "KR" | "DE" | "GB" | "AU" | "CA" => true
  | _ => false

/-- `enforce_geo(fp, country_code)`: re-pick the locale triple from the
country catalog (seeded `fp.seed ^ 0x9e0c0de0`), then downgrade 4K screens
for countries outside the allow-list.  Unknown codes: identity. -/
def enforceGeo (fp : Fingerprint) (country_code : String) (G : Nat → Nat → Nat) :
    Fingerprint :=
  let cc := strToUpper country_code
  match geoCatalog cc with
  | none => fp
  | some options =>
    let r : RngO := ⟨G (fp.seed ^^^ 0x9e0c0de0), 0⟩
    let (r, idx) := genRange r 0 options.length
    let e := options.getD idx ("", "", "")
    let fp := { fp with locale := e.1, accept_language := e.2.1, timezone := e.2.2 }
    let allow_4k := geoAllow4k cc
    if allow_4k = false ∧ 3840 ≤ fp.screen_width then
      let (r, d) := genRange r 0 20
      let (_r, b) := genBool r (30 / 100)
      { fp with screen_width := 1920, screen_height := 1080, viewport_width := 1920,
                viewport_height := 1080 - (88 + 40 + d),
                pixel_ratio := if b then 1.25 else 1.0 }
    else fp

/-! ## Geo validator (`geo_validator.rs`) -/

inductive Severity where
  | hard
  | soft
  | info
deriving DecidableEq

structure GeoViolation where
  code : String
  severity : Severity
  description : String
  fields : List String
  suggestion : String
deriving DecidableEq

def hardV (code description : String) (fields : List String) (suggestion : String) :
    GeoViolation :=
  ⟨code, .hard, description, fields, suggestion⟩

def softV (code description : String) (fields : List String) (suggestion : String) :
    GeoViolation :=
  ⟨code, .soft, description, fields, suggestion⟩

def infoV (code description : String) (fields : List String) (suggestion : String) :
    GeoViolation :=
  ⟨code, .info, description, fields, suggestion⟩

/-- `allowed_locale_prefixes`: BCP-47 whitelist per country; unknown
countries fall back to English-only. -/
def allowedLocalePfxs (cc : String) : List String :=
  match cc with
  | "US" => ["en-US", "en-"]
  | "GB" => ["en-GB", "en-"]
  | "CA" => ["en-CA", "fr-CA", "en-", "fr-"]
  | "AU" => ["en-AU", "en-"]
  | "NZ" => ["en-NZ", "en-"]
  | "IE" => ["en-IE", "en-"]
  | "DE" => ["de-DE", "de-AT", "de-CH", "de-"]
  | "AT" => ["de-AT", "de-"]
  | "CH" => ["de-CH", "fr-CH", "it-CH", "de-", "fr-", "it-"]
  | "FR" => ["fr-FR", "fr-"]
  | "BE" => ["fr-BE", "nl-BE", "de-BE", "fr-", "nl-", "de-"]
  | "NL" => ["nl-NL", "nl-"]
  | "ES" => ["es-ES", "es-", "ca-", "gl-", "eu-"]
  | "MX" => ["es-MX", "es-"]
  | "AR" => ["es-AR", "es-"]
  | "CO" => ["es-CO", "es-"]
  | "IT" => ["it-IT", "it-"]
  | "PT" => ["pt-PT", "pt-"]
  | "BR" => ["pt-BR", "pt-"]
  | "PL" => ["pl-PL", "pl-"]
  | "SE" => ["sv-SE", "sv-"]
  | "NO" => ["nb-NO", "nn-NO", "no-", "nb-", "nn-"]
  | "DK" => ["da-DK", "da-"]
  | "FI" => ["fi-FI", "fi-", "sv-FI"]
  | "CZ" => ["cs-CZ", "cs-"]
  | "SK" => ["sk-SK", "sk-"]
  | "HU" => ["hu-HU", "hu-"]
  | "RO" => ["ro-RO", "ro-"]
  | "BG" => ["bg-BG", "bg-"]
  | "HR" => ["hr-HR", "hr-"]
  | "GR" => ["el-GR", "el-"]
  | "TR" => ["tr-TR", "tr-"]
  | "UA" => ["uk-UA", "uk-", "ru-"]
  | "RU" => ["ru-RU", "ru-"]
  | "JP" => ["ja-JP", "ja-"]
  | "KR" => ["ko-KR", "ko-"]
  | "CN" => ["zh-CN", "zh-Hans", "zh-"]
  | "TW" => ["zh-TW", "zh-Hant", "zh-"]
  | "HK" => ["zh-HK", "zh-", "en-HK", "en-"]
  | "SG" => ["en-SG", "zh-SG", "ms-SG", "en-", "zh-"]
  | "IN" => ["en-IN", "hi-IN", "en-", "hi-"]
  | "ID" => ["id-ID", "id-"]
  | "MY" => ["ms-MY", "en-MY", "ms-", "en-"]
  | "TH" => ["th-TH", "th-"]
  | "VN" => ["vi-VN", "vi-"]
  | "PH" => ["fil-PH", "en-PH", "en-"]
  | "SA" => ["ar-SA", "ar-"]
  | "AE" => ["ar-AE", "ar-", "en-"]
  | "IL" => ["he-IL", "he-", "en-"]
  | "ZA" => ["en-ZA", "af-ZA", "en-", "af-"]
  | "NG" => ["en-NG", "en-"]
  | "KE" => ["sw-KE", "en-KE", "en-"]
  | _ => ["en-"]

/-- `allowed_tz_prefixes`: IANA timezone whitelist per country; unknown
countries have no restriction. -/
def allowedTzPfxs (cc : String) : List String :=
  match cc with
  | "US" | "CA" | "MX" | "AR" | "CO" | "BR" | "CL" | "PE" | "VE" | "EC" | "BO"
  | "PY" | "UY" => ["America/"]
  | "GB" | "IE" => ["Europe/London", "Europe/Dublin"]
  | "DE" | "AT" | "CH" | "FR" | "BE" | "NL" | "ES" | "IT" | "PT" | "PL" | "SE"
  | "NO" | "DK" | "FI" | "CZ" | "SK" | "HU" | "RO" | "BG" | "HR" | "GR" | "TR"
  | "UA" | "RU" => ["Europe/"]
  | "AU" | "NZ" | "PG" | "FJ" => ["Australia/", "Pacific/"]
  | "JP" => ["Asia/Tokyo"]
  | "KR" => ["Asia/Seoul"]
  | "CN" | "TW" | "HK" | "SG" | "MY" | "ID" | "PH" | "TH" | "VN" | "IN" | "SA"
  | "AE" | "IL" => ["Asia/"]
  | "ZA" | "NG" | "KE" | "ET" | "GH" | "TZ" | "UG" => ["Africa/"]
  | _ => []

/-- `is_4k_or_above`. -/
def is4kOrAbove (width height : Nat) : Bool := decide (3840 ≤ width ∧ 2160 ≤ height)

/-- `allows_4k`: countries with realistic 4K desktop penetration. -/
def allows4k (cc : String) : Bool :=
  match cc with
  | "US" | "CA" | "GB" | "AU" | "DE" | "FR" | "NL" | "SE" | "NO" | "DK" | "FI"
  | "CH" | "AT" | "JP" | "KR" | "SG" | "HK" | "TW" | "NZ" | "IE" | "BE" | "IT"
  | "ES" | "PT" | "PL" => true
  | _ => false

/-- `allows_high_dpr`: flag DPR ≥ 2 only in the listed countries. -/
def allowsHighDpr (cc : String) : Bool :=
  match cc with
  | "NG" | "ET" | "UG" | "TZ" | "GH" | "KE" | "BD" | "KH" | "LA" | "MM" => false
  | _ => true

/-- The consistency condition of `check_platform_consistency`. -/
def platformOK (ua_platform platform : String) : Bool :=
  match ua_platform with
  | "Windows" => platform == "Win32"
  | "macOS" => platform == "MacIntel"
  | "Linux" => strStartsWith platform "Linux"
  | _ => true

/-- `check_platform_consistency` (Hard `PLATFORM_UA_MISMATCH`). -/
def checkPlatformConsistency (fp : Fingerprint) : List GeoViolation :=
  if platformOK fp.ua_platform fp.platform then []
  else [hardV "PLATFORM_UA_MISMATCH"
    ("navigator.platform '" ++ fp.platform ++ "' is inconsistent with ua_platform '" ++
      fp.ua_platform ++ "'")
    ["platform", "ua_platform"]
    "Regenerate fingerprint or align ua_platform with platform"]

/-- The mismatch condition of `check_locale_tz_consistency`. -/
def localeTzMismatch (locale timezone : String) : Bool :=
  let locale_region := strToUpper ((strSplitOn locale "-").getD 1 "")
  let tz_continent := strToLower ((strSplitOn timezone "/").headD "")
  match locale_region with
  | "DE" | "AT" | "CH" | "FR" | "NL" | "BE" | "PL" | "SE" | "NO" | "DK" | "FI"
  | "IT" | "ES" | "PT" | "GR" | "CZ" | "SK" | "HU" | "RO" | "BG" | "HR" =>
    tz_continent != "europe" && !(strStartsWith timezone "Europe/")
  | "JP" => timezone != "Asia/Tokyo"
  | "KR" => timezone != "Asia/Seoul"
  | "AU" => tz_continent != "australia"
  | "BR" => tz_continent != "america"
  | "US" | "CA" => tz_continent != "america"
  | _ => false

/-- `check_locale_tz_consistency` (Hard `LOCALE_TZ_MISMATCH`). -/
def checkLocaleTzConsistency (fp : Fingerprint) : List GeoViolation :=
  if localeTzMismatch fp.locale fp.timezone then
    [hardV "LOCALE_TZ_MISMATCH"
      ("Locale '" ++ fp.locale ++ "' is incompatible with timezone '" ++ fp.timezone ++ "'")
      ["locale", "timezone"]
      "Use enforce_geo() or auto_correct() to align timezone with locale region"]
  else []

/-- The first entry of `accept_language`, lowercased (computed twice by the
source, once per sub-check). -/
def acceptPrimary (accept_language : String) : String :=
  strToLower (strTrim ((strSplitOn ((strSplitOn accept_language ",").headD "") ";").headD ""))

/-- The Hard condition of `check_accept_language_locale`. -/
def acceptLangMismatch (locale accept_language : String) : Bool :=
  let primary_locale_lang := (strSplitOn locale "-").headD "en"
  let accept_lang_pfx := strToLower ((strSplitOn (acceptPrimary accept_language) "-").headD "")
  accept_lang_pfx != strToLower primary_locale_lang

/-- The Soft condition of `check_accept_language_locale`. -/
def acceptLangPartialCond (locale accept_language : String) : Bool :=
  let primary_locale_lang := (strSplitOn locale "-").headD "en"
  let first_full := acceptPrimary accept_language
  first_full != strToLower locale && first_full != primary_locale_lang

/-- `check_accept_language_locale` (Hard `ACCEPT_LANGUAGE_LOCALE_MISMATCH`
plus Soft `ACCEPT_LANGUAGE_LOCALE_PARTIAL_MISMATCH`). -/
def checkAcceptLanguageLocale (fp : Fingerprint) : List GeoViolation :=
  let accept_primary := acceptPrimary fp.accept_language
  let first_part : List GeoViolation :=
    if acceptLangMismatch fp.locale fp.accept_language then
      [hardV "ACCEPT_LANGUAGE_LOCALE_MISMATCH"
        ("accept_language primary tag '" ++ accept_primary ++
          "' does not match locale language '" ++ fp.locale ++ "'")
        ["accept_language", "locale"]
        "Set accept_language to start with the same language tag as locale"]
    else []
  let first_full := acceptPrimary fp.accept_language
  let second_part : List GeoViolation :=
    if acceptLangPartialCond fp.locale fp.accept_language then
      [softV "ACCEPT_LANGUAGE_LOCALE_PARTIAL_MISMATCH"
        ("First accept_language entry '" ++ first_full ++
          "' does not exactly match locale '" ++ fp.locale ++
          "'; WAFs may score this as inconsistent")
        ["accept_language", "locale"]
        "Ensure the first accept-language value exactly matches the locale tag"]
    else []
  first_part ++ second_part

/-- `check_macos_dpr` (Soft `MACOS_4K_LOW_DPR`, Info
`MACOS_HIGH_RES_LOW_DPR`). -/
def checkMacosDpr (fp : Fingerprint) : List GeoViolation :=
  let first_part : List GeoViolation :=
    if fp.ua_platform = "macOS" ∧ is4kOrAbove fp.screen_width fp.screen_height = true ∧
        fp.pixel_ratio < 1.5 then
      [softV "MACOS_4K_LOW_DPR"
        ("macOS profile with 4K screen (" ++ toString fp.screen_width ++ "x" ++
          toString fp.screen_height ++
          ") but low pixel_ratio is unrealistic; macOS reports HiDPI (2.0) for Retina displays")
        ["ua_platform", "screen_width", "screen_height", "pixel_ratio"]
        "Set pixel_ratio to 2.0 for macOS 4K/5K screens or use a non-4K resolution"]
    else []
  let second_part : List GeoViolation :=
    if fp.ua_platform = "macOS" ∧ 2560 ≤ fp.screen_width ∧ fp.pixel_ratio < 1.5 then
      [infoV "MACOS_HIGH_RES_LOW_DPR"
        ("macOS with " ++ toString fp.screen_width ++
          "px wide screen and low pixel_ratio is unusual; most modern Macs use Retina (DPR>=2)")
        ["ua_platform", "screen_width", "pixel_ratio"]
        "Consider setting pixel_ratio=2.0 for macOS profiles with high-res screens"]
    else []
  first_part ++ second_part

/-- The match condition of `check_locale_vs_country`. -/
def localeCountryMatched (cc locale : String) : Bool :=
  (allowedLocalePfxs cc).any (fun p => strStartsWith (strToLower locale) (strToLower p))

/-- The match condition of `check_tz_vs_country`. -/
def tzCountryMatched (cc timezone : String) : Bool :=
  (allowedTzPfxs cc).any (fun p => strStartsWith timezone p)

/-- `check_locale_vs_country` (Hard `LOCALE_COUNTRY_MISMATCH`). -/
def checkLocaleVsCountry (fp : Fingerprint) (cc : String) : List GeoViolation :=
  let allowed := allowedLocalePfxs cc
  if allowed = [] then []
  else
    if localeCountryMatched cc fp.locale then []
    else [hardV "LOCALE_COUNTRY_MISMATCH"
      ("Locale '" ++ fp.locale ++ "' is not consistent with proxy country '" ++ cc ++
        "' (expected one of: " ++ strJoin ", " allowed ++ ")")
      ["locale", "proxy_country"]
      ("Run auto_correct() or manually set locale to match proxy country '" ++ cc ++
        "'; allowed prefixes: " ++ strJoin ", " allowed)]

/-- `check_tz_vs_country` (Hard `TIMEZONE_COUNTRY_MISMATCH`). -/
def checkTzVsCountry (fp : Fingerprint) (cc : String) : List GeoViolation :=
  let allowed := allowedTzPfxs cc
  if allowed = [] then []
  else
    if tzCountryMatched cc fp.timezone then []
    else [hardV "TIMEZONE_COUNTRY_MISMATCH"
      ("Timezone '" ++ fp.timezone ++ "' is not consistent with proxy country '" ++ cc ++
        "' (expected prefix: " ++ strJoin " or " allowed ++ ")")
      ["timezone", "proxy_country"]
      ("Run auto_correct() or manually set timezone to match proxy country '" ++ cc ++
        "'; allowed: " ++ strJoin ", " allowed)]

/-- `check_4k_vs_country` (Soft `4K_SCREEN_COUNTRY_UNREALISTIC`). -/
def check4kVsCountry (fp : Fingerprint) (cc : String) : List GeoViolation :=
  if is4kOrAbove fp.screen_width fp.screen_height = true ∧ allows4k cc = false then
    [softV "4K_SCREEN_COUNTRY_UNREALISTIC"
      ("4K screen resolution (" ++ toString fp.screen_width ++ "x" ++
        toString fp.screen_height ++ ") is statistically rare (<3%) for proxy country '" ++
        cc ++ "'; may trigger WAF geo-consistency score")
      ["screen_width", "screen_height", "proxy_country"]
      "Set screen_width/height to 1920x1080 for this country, or use auto_correct()"]
  else []

/-- `check_dpr_vs_country` (Info `HIGH_DPR_COUNTRY_UNUSUAL`). -/
def checkDprVsCountry (fp : Fingerprint) (cc : String) : List GeoViolation :=
  if 2 ≤ fp.pixel_ratio ∧ allowsHighDpr cc = false then
    [infoV "HIGH_DPR_COUNTRY_UNUSUAL"
      ("high pixel_ratio is unusual for proxy country '" ++ cc ++
        "' where high-end consumer devices have low market penetration")
      ["pixel_ratio", "proxy_country"]
      "Consider setting pixel_ratio=1.0 for this country"]
  else []

def sevRank : Severity → Nat
  | .hard => 0
  | .soft => 1
  | .info => 2

/-- Stable insertion into a severity-sorted list (mirrors the stable
`sort_by_key`). -/
def insertViol (v : GeoViolation) : List GeoViolation → List GeoViolation
  | [] => [v]
  | w :: ws =>
    if sevRank v.severity ≤ sevRank w.severity then v :: w :: ws
    else w :: insertViol v ws

def sortViolations : List GeoViolation → List GeoViolation
  | [] => []
  | v :: vs => insertViol v (sortViolations vs)

/-- The unsorted concatenation of all checks `validate` runs. -/
def validateRaw (fp : Fingerprint) (proxy_country : Option String) : List GeoViolation :=
  let internal := checkPlatformConsistency fp ++ checkLocaleTzConsistency fp ++
    checkAcceptLanguageLocale fp ++ checkMacosDpr fp
  match proxy_country with
  | none => internal
  | some cc0 =>
    let cc := strToUpper cc0
    internal ++ checkLocaleVsCountry fp cc ++ checkTzVsCountry fp cc ++
      check4kVsCountry fp cc ++ checkDprVsCountry fp cc

/-- `GeoValidator::validate`: all checks, sorted Hard → Soft → Info. -/
def validate (fp : Fingerprint) (proxy_country : Option String) : List GeoViolation :=
  sortViolations (validateRaw fp proxy_country)

structure AutoCorrectResult where
  fixed : List GeoViolation
  residual : List GeoViolation
deriving DecidableEq

/-- The correction pipeline applied by `auto_correct` once the fingerprint
is known to have violations: `enforce_geo`, then the 4K-screen fix, then the
high-DPR fix. -/
def acFix (fp : Fingerprint) (proxy_country : String) (seed : Nat)
    (G : Nat → Nat → Nat) : Fingerprint :=
  let fp := enforceGeo fp proxy_country G
  let cc := strToUpper proxy_country
  let fp :=
    if is4kOrAbove fp.screen_width fp.screen_height = true ∧ allows4k cc = false then
      let r : RngO := ⟨G (seed ^^^ 0xc0ffee), 0⟩
      let (r, d) := genRange r 0 20
      let (_r, b) := genBool r (30 / 100)
      { fp with screen_width := 1920, screen_height := 1080, viewport_width := 1920,
                viewport_height := 1080 - (88 + 40 + d),
                pixel_ratio := if b then 1.25 else 1.0 }
    else fp
  if 2 ≤ fp.pixel_ratio ∧ allowsHighDpr cc = false then { fp with pixel_ratio := 1.0 }
  else fp

/-- `GeoValidator::auto_correct`: returns the corrected fingerprint (the
in-place mutation) together with the result record. -/
def autoCorrect (fp : Fingerprint) (proxy_country : String) (seed : Nat)
    (G : Nat → Nat → Nat) : Fingerprint × AutoCorrectResult :=
  let before := validate fp (some proxy_country)
  if before = [] then (fp, ⟨[], []⟩)
  else
    let fp := acFix fp proxy_country seed G
    let after := validate fp (some proxy_country)
    let fixed := before.filter (fun v => !(after.any (fun a => a.code == v.code)))
    (fp, ⟨fixed, after⟩)

/-- `GeoValidator::consistency_score`: 1.0 minus per-severity penalties,
floored at 0. -/
def consistencyScore (fp : Fingerprint) (proxy_country : Option String) : ℚ :=
  let violations := validate fp proxy_country
  let penalty := (violations.map (fun v =>
    match v.severity with
    | .hard => (0.50 : ℚ)
    | .soft => 0.20
    | .info => 0.05)).sum
  max (1 - penalty) 0

/-! ## Supporting definitions for the proofs -/

/-- The 20 country codes of `enforce_geo`'s catalog. -/
def supportedCountries : List String :=
  ["US", "GB", "CA", "AU", "DE", "FR", "ES", "IT", "NL", "PL", "BR", "JP", "KR",
   "IN", "SG", "HK", "SE", "NO", "CH", "MX"]

/-- A locale/accept-language/timezone triple passes all four Hard
locale-related checks for country `cc`. -/
def entryHardOK (cc : String) (e : String × String × String) : Bool :=
  !localeTzMismatch e.1 e.2.2 && !acceptLangMismatch e.1 e.2.1 &&
    localeCountryMatched cc e.1 && tzCountryMatched cc e.2.2

/-! ## Basic lemmas -/

theorem ratClamp_le (x lo hi : ℚ) (h : lo ≤ hi) :
    lo ≤ ratClamp x lo hi ∧ ratClamp x lo hi ≤ hi := by
  unfold ratClamp
  split_ifs with h1 h2 <;> constructor <;> linarith

theorem quantumNoise_2 (st : QEState) (dom : String) (mn mx : ℚ) :
    (quantumNoise st dom mn mx).2 = noiseFromSum (gaussSum st dom).2 mn mx := by
  unfold quantumNoise
  rcases h : gaussSum st dom with ⟨st2, sum⟩
  rfl

/-! ### Correctness of the rounding model

`natLog2F` → `qExpFind` → `rndInt` → `fl64Pos` → `fl64`: the facts proved
here are exactly the ones the noise-bound theorems need — the exponent
finder brackets its argument, the significand rounder is a monotone map
into `[⌊m⌋, ⌊m⌋ + 1]`, hence `fl64` is monotone, and the channel bounds
follow without any per-sum case analysis. -/

theorem natLog2F_spec (fuel : Nat) : ∀ n : Nat, 1 ≤ n → n < 2 ^ fuel →
    2 ^ natLog2F fuel n ≤ n ∧ n < 2 ^ (natLog2F fuel n + 1) := by
  induction fuel with
  | zero =>
    intro n h1 h2
    norm_num at h2
    omega
  | succ fuel ih =>
    intro n h1 h2
    show 2 ^ (if n ≤ 1 then 0 else natLog2F fuel (n / 2) + 1) ≤ n ∧
      n < 2 ^ ((if n ≤ 1 then 0 else natLog2F fuel (n / 2) + 1) + 1)
    by_cases hn : n ≤ 1
    · rw [if_pos hn]
      norm_num
      omega
    · rw [if_neg hn]
      have hp : (2 : Nat) ^ (fuel + 1) = 2 ^ fuel * 2 := pow_succ 2 fuel
      obtain ⟨hl, hr⟩ := ih (n / 2) (by omega) (by omega)
      have e1 : (2 : Nat) ^ (natLog2F fuel (n / 2) + 1) =
          2 ^ natLog2F fuel (n / 2) * 2 := pow_succ 2 _
      have e2 : (2 : Nat) ^ (natLog2F fuel (n / 2) + 1 + 1) =
          2 ^ natLog2F fuel (n / 2) * 2 * 2 := by
        rw [pow_succ, pow_succ]
      constructor
      · omega
      · omega

theorem pow2Q_eq (e : Int) : pow2Q e = (2 : ℚ) ^ e := by
  unfold pow2Q
  split_ifs with h
  · push_cast
    rw [← zpow_natCast (2 : ℚ) e.toNat, Int.toNat_of_nonneg h]
  · push_cast
    rw [← zpow_natCast (2 : ℚ) (-e).toNat, Int.toNat_of_nonneg (by omega), ← zpow_neg,
      neg_neg]

theorem pow2Q_pos (e : Int) : 0 < pow2Q e := by
  rw [pow2Q_eq]
  exact zpow_pos (by norm_num) e

theorem pow2Q_mul (x y : Int) : pow2Q x * pow2Q y = pow2Q (x + y) := by
  rw [pow2Q_eq, pow2Q_eq, pow2Q_eq, ← zpow_add₀ (by norm_num : (2 : ℚ) ≠ 0)]

theorem pow2Q_mono {x y : Int} (h : x ≤ y) : pow2Q x ≤ pow2Q y := by
  rw [pow2Q_eq, pow2Q_eq]
  exact zpow_le_zpow_right₀ (by norm_num) h

theorem qExpFind_spec (q : ℚ) (hq : 0 < q) :
    pow2Q (qExpFind q) ≤ q ∧ q < pow2Q (qExpFind q + 1) := by
  have hnum0 : 0 < q.num := Rat.num_pos.mpr hq
  obtain ⟨ha1, ha2⟩ :=
    natLog2F_spec q.num.toNat q.num.toNat (by omega) (Nat.lt_two_pow _)
  obtain ⟨hb1, hb2⟩ :=
    natLog2F_spec q.den q.den q.den_pos (Nat.lt_two_pow _)
  simp only [qExpFind]
  set a := natLog2F q.num.toNat q.num.toNat with hadef
  set b := natLog2F q.den q.den with hbdef
  have hden0Q : (0 : ℚ) < (q.den : ℚ) := by exact_mod_cast q.den_pos
  have hQ : q = (q.num.toNat : ℚ) / (q.den : ℚ) := by
    rw [show ((q.num.toNat : ℕ) : ℚ) = ((q.num.toNat : ℤ) : ℚ) by push_cast; ring,
      Int.toNat_of_nonneg (le_of_lt hnum0), Rat.num_div_den]
  have hA1 : (2 : ℚ) ^ ((a : ℤ)) ≤ (q.num.toNat : ℚ) := by exact_mod_cast ha1
  have hA2 : (q.num.toNat : ℚ) < (2 : ℚ) ^ ((a : ℤ) + 1) := by
    have h0 : ((a : ℤ) + 1) = ((a + 1 : ℕ) : ℤ) := by push_cast; ring
    rw [h0]
    exact_mod_cast ha2
  have hB1 : (2 : ℚ) ^ ((b : ℤ)) ≤ (q.den : ℚ) := by exact_mod_cast hb1
  have hB2 : (q.den : ℚ) < (2 : ℚ) ^ ((b : ℤ) + 1) := by
    have h0 : ((b : ℤ) + 1) = ((b + 1 : ℕ) : ℤ) := by push_cast; ring
    rw [h0]
    exact_mod_cast hb2
  have hW2 : q < (2 : ℚ) ^ ((a : ℤ) - b + 1) := by
    rw [hQ, div_lt_iff₀ hden0Q]
    calc (q.num.toNat : ℚ) < (2 : ℚ) ^ ((a : ℤ) + 1) := hA2
      _ = (2 : ℚ) ^ ((a : ℤ) - b + 1) * (2 : ℚ) ^ ((b : ℤ)) := by
          rw [← zpow_add₀ (by norm_num : (2 : ℚ) ≠ 0)]
          ring_nf
      _ ≤ (2 : ℚ) ^ ((a : ℤ) - b + 1) * (q.den : ℚ) :=
          mul_le_mul_of_nonneg_left hB1 (le_of_lt (zpow_pos (by norm_num) _))
  have hW1 : (2 : ℚ) ^ ((a : ℤ) - b - 1) < q := by
    rw [hQ, lt_div_iff₀ hden0Q]
    calc (2 : ℚ) ^ ((a : ℤ) - b - 1) * (q.den : ℚ) <
        (2 : ℚ) ^ ((a : ℤ) - b - 1) * (2 : ℚ) ^ ((b : ℤ) + 1) :=
          mul_lt_mul_of_pos_left hB2 (zpow_pos (by norm_num) _)
      _ = (2 : ℚ) ^ ((a : ℤ)) := by
          rw [← zpow_add₀ (by norm_num : (2 : ℚ) ≠ 0)]
          ring_nf
      _ ≤ (q.num.toNat : ℚ) := hA1
  split_ifs with h1 h2
  · constructor
    · rw [pow2Q_eq]
      exact le_of_lt hW1
    · rw [show (a : ℤ) - b - 1 + 1 = (a : ℤ) - b by ring]
      exact h1
  · exact absurd h2 (not_le.mpr (by rw [pow2Q_eq]; exact hW2))
  · exact ⟨le_of_not_lt h1, not_le.mp h2⟩

theorem rndInt_eq (m : ℚ) : rndInt m =
    if m - (⌊m⌋ : ℚ) < 1 / 2 then ⌊m⌋
    else if 1 / 2 < m - (⌊m⌋ : ℚ) then ⌊m⌋ + 1
    else if ⌊m⌋ % 2 = 0 then ⌊m⌋ else ⌊m⌋ + 1 := by
  simp only [rndInt, ← Rat.floor_def]

theorem rndInt_bounds (m : ℚ) : ⌊m⌋ ≤ rndInt m ∧ rndInt m ≤ ⌊m⌋ + 1 := by
  rw [rndInt_eq]
  split_ifs <;> omega

theorem rndInt_mono {m m2 : ℚ} (h : m ≤ m2) : rndInt m ≤ rndInt m2 := by
  by_cases hf : ⌊m⌋ = ⌊m2⌋
  · have hr : m - (⌊m2⌋ : ℚ) ≤ m2 - (⌊m2⌋ : ℚ) := by linarith
    rw [rndInt_eq, rndInt_eq, hf]
    split_ifs <;> first | omega | linarith
  · have hle : ⌊m⌋ < ⌊m2⌋ := lt_of_le_of_ne (Int.floor_mono h) hf
    have h1 := (rndInt_bounds m).2
    have h2 := (rndInt_bounds m2).1
    omega

theorem fl64Pos_lb (q : ℚ) (hq : 0 < q) : pow2Q (qExpFind q) ≤ fl64Pos q := by
  obtain ⟨h1, _⟩ := qExpFind_spec q hq
  simp only [fl64Pos]
  set e := qExpFind q with he
  set m := q * pow2Q (52 - e) with hm
  have hS : (0 : ℚ) < pow2Q (52 - e) := pow2Q_pos _
  have hT : (0 : ℚ) < pow2Q (e - 52) := pow2Q_pos _
  have h52 : pow2Q (52 : Int) = ((4503599627370496 : ℤ) : ℚ) := by decide
  have hm1 : pow2Q (52 : Int) ≤ m := by
    rw [hm]
    calc pow2Q (52 : Int) = pow2Q e * pow2Q (52 - e) := by
          rw [pow2Q_mul]
          congr 1
          ring
      _ ≤ q * pow2Q (52 - e) := mul_le_mul_of_nonneg_right h1 (le_of_lt hS)
  have hfl : (4503599627370496 : ℤ) ≤ ⌊m⌋ := by
    rw [Int.le_floor]
    calc ((4503599627370496 : ℤ) : ℚ) = pow2Q (52 : Int) := h52.symm
      _ ≤ m := hm1
  have hn2 : ((4503599627370496 : ℤ) : ℚ) ≤ ((rndInt m : ℤ) : ℚ) := by
    exact_mod_cast le_trans hfl (rndInt_bounds m).1
  calc pow2Q e = pow2Q (52 : Int) * pow2Q (e - 52) := by
        rw [pow2Q_mul]
        congr 1
        ring
    _ = ((4503599627370496 : ℤ) : ℚ) * pow2Q (e - 52) := by rw [h52]
    _ ≤ ((rndInt m : ℤ) : ℚ) * pow2Q (e - 52) :=
        mul_le_mul_of_nonneg_right hn2 (le_of_lt hT)

theorem fl64Pos_ub (q : ℚ) (hq : 0 < q) : fl64Pos q ≤ pow2Q (qExpFind q + 1) := by
  obtain ⟨_, h2⟩ := qExpFind_spec q hq
  simp only [fl64Pos]
  set e := qExpFind q with he
  set m := q * pow2Q (52 - e) with hm
  have hS : (0 : ℚ) < pow2Q (52 - e) := pow2Q_pos _
  have hT : (0 : ℚ) < pow2Q (e - 52) := pow2Q_pos _
  have h53 : pow2Q (53 : Int) = ((9007199254740992 : ℤ) : ℚ) := by decide
  have hm2 : m < pow2Q (53 : Int) := by
    rw [hm]
    calc q * pow2Q (52 - e) < pow2Q (e + 1) * pow2Q (52 - e) :=
          mul_lt_mul_of_pos_right h2 hS
      _ = pow2Q (53 : Int) := by
          rw [pow2Q_mul]
          congr 1
          ring
  have hfl : ⌊m⌋ < (9007199254740992 : ℤ) := by
    have : ((⌊m⌋ : ℤ) : ℚ) < ((9007199254740992 : ℤ) : ℚ) := by
      calc ((⌊m⌋ : ℤ) : ℚ) ≤ m := Int.floor_le m
        _ < pow2Q (53 : Int) := hm2
        _ = ((9007199254740992 : ℤ) : ℚ) := h53
    exact_mod_cast this
  have hn2 : ((rndInt m : ℤ) : ℚ) ≤ ((9007199254740992 : ℤ) : ℚ) := by
    have hb := (rndInt_bounds m).2
    exact_mod_cast (by omega : rndInt m ≤ (9007199254740992 : ℤ))
  calc ((rndInt m : ℤ) : ℚ) * pow2Q (e - 52) ≤
      ((9007199254740992 : ℤ) : ℚ) * pow2Q (e - 52) :=
        mul_le_mul_of_nonneg_right hn2 (le_of_lt hT)
    _ = pow2Q (53 : Int) * pow2Q (e - 52) := by rw [h53]
    _ = pow2Q (e + 1) := by
        rw [pow2Q_mul]
        congr 1
        ring

theorem fl64Pos_pos (q : ℚ) (hq : 0 < q) : 0 < fl64Pos q :=
  lt_of_lt_of_le (pow2Q_pos _) (fl64Pos_lb q hq)

theorem qExpFind_mono {q r : ℚ} (hq : 0 < q) (h : q ≤ r) :
    qExpFind q ≤ qExpFind r := by
  have hr : 0 < r := lt_of_lt_of_le hq h
  obtain ⟨hq1, _⟩ := qExpFind_spec q hq
  obtain ⟨_, hr2⟩ := qExpFind_spec r hr
  by_contra hc
  push_neg at hc
  have : pow2Q (qExpFind r + 1) ≤ pow2Q (qExpFind q) := pow2Q_mono (by omega)
  linarith

theorem fl64Pos_mono {q r : ℚ} (hq : 0 < q) (h : q ≤ r) :
    fl64Pos q ≤ fl64Pos r := by
  have hr : 0 < r := lt_of_lt_of_le hq h
  by_cases he : qExpFind q = qExpFind r
  · simp only [fl64Pos, he]
    have hmm : q * pow2Q (52 - qExpFind r) ≤ r * pow2Q (52 - qExpFind r) :=
      mul_le_mul_of_nonneg_right h (le_of_lt (pow2Q_pos _))
    exact mul_le_mul_of_nonneg_right (by exact_mod_cast rndInt_mono hmm)
      (le_of_lt (pow2Q_pos _))
  · have hee : qExpFind q + 1 ≤ qExpFind r :=
      lt_of_le_of_ne (qExpFind_mono hq h) he
    calc fl64Pos q ≤ pow2Q (qExpFind q + 1) := fl64Pos_ub q hq
      _ ≤ pow2Q (qExpFind r) := pow2Q_mono hee
      _ ≤ fl64Pos r := fl64Pos_lb r hr

theorem fl64_zero : fl64 0 = 0 := by norm_num [fl64]

theorem fl64_nonneg {q : ℚ} (h : 0 ≤ q) : 0 ≤ fl64 q := by
  unfold fl64
  split_ifs with h1 h2
  · exact le_refl 0
  · linarith
  · exact le_of_lt (fl64Pos_pos q (lt_of_le_of_ne h (Ne.symm h1)))

theorem fl64_mono {q r : ℚ} (h : q ≤ r) : fl64 q ≤ fl64 r := by
  rcases lt_trichotomy q 0 with hq | hq | hq
  · rcases lt_trichotomy r 0 with hr | hr | hr
    · have e1 : fl64 q = -fl64Pos (-q) := by
        unfold fl64
        rw [if_neg (by linarith), if_pos hq]
      have e2 : fl64 r = -fl64Pos (-r) := by
        unfold fl64
        rw [if_neg (by linarith), if_pos hr]
      rw [e1, e2, neg_le_neg_iff]
      exact fl64Pos_mono (by linarith) (by linarith)
    · have e1 : fl64 q = -fl64Pos (-q) := by
        unfold fl64
        rw [if_neg (by linarith), if_pos hq]
      have hp := fl64Pos_pos (-q) (by linarith)
      rw [e1, hr, fl64_zero]
      linarith
    · have e1 : fl64 q = -fl64Pos (-q) := by
        unfold fl64
        rw [if_neg (by linarith), if_pos hq]
      have e2 : fl64 r = fl64Pos r := by
        unfold fl64
        rw [if_neg (by linarith), if_neg (by linarith)]
      have hp1 := fl64Pos_pos (-q) (by linarith)
      have hp2 := fl64Pos_pos r hr
      rw [e1, e2]
      linarith
  · rw [hq, fl64_zero]
    exact fl64_nonneg (by linarith)
  · have e1 : fl64 q = fl64Pos q := by
      unfold fl64
      rw [if_neg (by linarith), if_neg (by linarith)]
    have e2 : fl64 r = fl64Pos r := by
      unfold fl64
      rw [if_neg (by linarith), if_neg (by linarith)]
    rw [e1, e2]
    exact fl64Pos_mono hq h

theorem fl64_one : fl64 1 = 1 := by decide

/-! ### Channel bounds from the rounding model -/

theorem ratClamp_high (sum : Nat) (h : 2304 ≤ sum) :
    ratClamp (((sum : ℚ) - 1536) / 256) (-3) 3 = 3 := by
  have hs : (2304 : ℚ) ≤ (sum : ℚ) := by exact_mod_cast h
  have hx : (3 : ℚ) ≤ ((sum : ℚ) - 1536) / 256 := by
    rw [le_div_iff₀ (by norm_num : (0 : ℚ) < 256)]
    linarith
  unfold ratClamp
  split_ifs with h1 h2
  · linarith
  · rfl
  · linarith

theorem ratClamp_low (sum : Nat) (h : sum ≤ 768) :
    ratClamp (((sum : ℚ) - 1536) / 256) (-3) 3 = -3 := by
  have hs : (sum : ℚ) ≤ 768 := by exact_mod_cast h
  have hx : ((sum : ℚ) - 1536) / 256 ≤ -3 := by
    rw [div_le_iff₀ (by norm_num : (0 : ℚ) < 256)]
    linarith
  unfold ratClamp
  split_ifs with h1 h2
  · rfl
  · linarith
  · linarith

/-- For every 12-byte sum the `f64` noise value lies between `fl64 mn` and
the value of the `+3σ` clamp case — the program's true attainable top,
which for the audio channel is one ulp above the configured bound. -/
theorem noiseFromSum_le (sum : Nat) (mn mx : ℚ) (h : mn ≤ mx) :
    fl64 mn ≤ noiseFromSum sum mn mx ∧
      noiseFromSum sum mn mx ≤ fl64 (mn + fl64 (fl64 (mx - mn))) := by
  simp only [noiseFromSum]
  obtain ⟨hc1, hc2⟩ := ratClamp_le (((sum : ℚ) - 1536) / 256) (-3) 3 (by norm_num)
  set c := ratClamp (((sum : ℚ) - 1536) / 256) (-3) 3 with hc
  have hx0 : (0 : ℚ) ≤ (c + 3) / 6 := div_nonneg (by linarith) (by norm_num)
  have hx1 : (c + 3) / 6 ≤ 1 := by
    rw [div_le_one (by norm_num : (0 : ℚ) < 6)]
    linarith
  have ht0 : (0 : ℚ) ≤ fl64 ((c + 3) / 6) := fl64_nonneg hx0
  have ht1 : fl64 ((c + 3) / 6) ≤ 1 := by
    calc fl64 ((c + 3) / 6) ≤ fl64 1 := fl64_mono hx1
      _ = 1 := fl64_one
  have hd0 : (0 : ℚ) ≤ fl64 (mx - mn) := fl64_nonneg (by linarith)
  have hp0 : (0 : ℚ) ≤ fl64 (fl64 ((c + 3) / 6) * fl64 (mx - mn)) :=
    fl64_nonneg (mul_nonneg ht0 hd0)
  have hpd : fl64 (fl64 ((c + 3) / 6) * fl64 (mx - mn)) ≤ fl64 (fl64 (mx - mn)) :=
    fl64_mono (mul_le_of_le_one_left hd0 ht1)
  exact ⟨fl64_mono (by linarith), fl64_mono (by linarith)⟩

/-- Below `−3σ` (12-byte sum at most 768) the channel returns exactly the
`f64` value of its configured minimum. -/
theorem noiseFromSum_low (sum : Nat) (mn mx : ℚ) (h : sum ≤ 768) :
    noiseFromSum sum mn mx = fl64 mn := by
  simp only [noiseFromSum]
  rw [ratClamp_low sum h]
  norm_num [fl64_zero]

/-- At or beyond `+3σ` (12-byte sum at least 2304) the channel returns the
`f64` evaluation of `mn + 1.0 * (mx - mn)`, which need not be `fl64 mx`. -/
theorem noiseFromSum_top (sum : Nat) (mn mx : ℚ) (h : 2304 ≤ sum) :
    noiseFromSum sum mn mx = fl64 (mn + fl64 (fl64 (mx - mn))) := by
  simp only [noiseFromSum]
  rw [ratClamp_high sum h]
  norm_num [fl64_one]

/-- Canvas channel: every `f64` value stays in `[fl64 0.01, fl64 0.15]`;
here the `+3σ` top IS the configured bound (`f64` evaluates
`0.01 + 1.0 * (0.15 - 0.01)` to `0.15` exactly). -/
theorem canvasNoiseBounds (sum : Nat) :
    fl64 0.01 ≤ noiseFromSum sum (fl64 0.01) (fl64 0.15) ∧
      noiseFromSum sum (fl64 0.01) (fl64 0.15) ≤ fl64 0.15 := by
  obtain ⟨h1, h2⟩ := noiseFromSum_le sum (fl64 0.01) (fl64 0.15) (by decide)
  have e1 : fl64 (fl64 0.01) = fl64 0.01 := by decide
  have e2 : fl64 (fl64 0.01 + fl64 (fl64 (fl64 0.15 - fl64 0.01))) = fl64 0.15 := by
    decide
  rw [e1] at h1
  rw [e2] at h2
  exact ⟨h1, h2⟩

/-- WebGL channel: every `f64` value stays in `[fl64 0.01, fl64 0.10]`. -/
theorem webglNoiseBounds (sum : Nat) :
    fl64 0.01 ≤ noiseFromSum sum (fl64 0.01) (fl64 0.10) ∧
      noiseFromSum sum (fl64 0.01) (fl64 0.10) ≤ fl64 0.10 := by
  obtain ⟨h1, h2⟩ := noiseFromSum_le sum (fl64 0.01) (fl64 0.10) (by decide)
  have e1 : fl64 (fl64 0.01) = fl64 0.01 := by decide
  have e2 : fl64 (fl64 0.01 + fl64 (fl64 (fl64 0.10 - fl64 0.01))) = fl64 0.10 := by
    decide
  rw [e1] at h1
  rw [e2] at h2
  exact ⟨h1, h2⟩

/-- Audio channel: every `f64` value stays in `[fl64 0.001, audioNoiseMax]`
— and the top, reached whenever the sum clamps at `+3σ`, is NOT the
configured bound `fl64 0.010` but one ulp above it. -/
theorem audioNoiseBounds (sum : Nat) :
    fl64 0.001 ≤ noiseFromSum sum (fl64 0.001) (fl64 0.010) ∧
      noiseFromSum sum (fl64 0.001) (fl64 0.010) ≤ audioNoiseMax := by
  obtain ⟨h1, h2⟩ := noiseFromSum_le sum (fl64 0.001) (fl64 0.010) (by decide)
  have e1 : fl64 (fl64 0.001) = fl64 0.001 := by decide
  have e3 : audioNoiseMax = fl64 (fl64 0.001 + fl64 (fl64 (fl64 0.010 - fl64 0.001))) := by
    unfold audioNoiseMax
    exact noiseFromSum_top 2304 _ _ (by norm_num)
  rw [e1] at h1
  rw [← e3] at h2
  exact ⟨h1, h2⟩

/-- The canvas mutation delta stays in `[fl64 (-0.01), fl64 0.01]` for
every possible 12-byte sum. -/
theorem mutateCanvasDeltaBounds (sum : Nat) :
    fl64 (-0.01) ≤ noiseFromSum sum (fl64 (-0.01)) (fl64 0.01) ∧
      noiseFromSum sum (fl64 (-0.01)) (fl64 0.01) ≤ fl64 0.01 := by
  obtain ⟨h1, h2⟩ := noiseFromSum_le sum (fl64 (-0.01)) (fl64 0.01) (by decide)
  have e1 : fl64 (fl64 (-0.01)) = fl64 (-0.01) := by decide
  have e2 : fl64 (fl64 (-0.01) + fl64 (fl64 (fl64 0.01 - fl64 (-0.01)))) = fl64 0.01 := by
    decide
  rw [e1] at h1
  rw [e2] at h2
  exact ⟨h1, h2⟩

theorem insertViol_perm (w : GeoViolation) (l : List GeoViolation) :
    List.Perm (insertViol w l) (w :: l) := by
  induction l with
  | nil => simp [insertViol]
  | cons x xs ih =>
    unfold insertViol
    split
    · exact List.Perm.refl _
    · exact ((ih.cons x).trans (List.Perm.swap w x xs))

theorem sortViolations_perm (l : List GeoViolation) :
    List.Perm (sortViolations l) l := by
  induction l with
  | nil => simp [sortViolations]
  | cons x xs ih => exact (insertViol_perm x (sortViolations xs)).trans (ih.cons x)

theorem mem_sortViolations {v : GeoViolation} {l : List GeoViolation} :
    v ∈ sortViolations l ↔ v ∈ l :=
  (sortViolations_perm l).mem_iff

/-! ## Finite facts about the country tables -/

theorem supported_entries_ok :
    supportedCountries.all
      (fun cc => ((geoCatalog cc).getD []).all (fun e => entryHardOK cc e)) = true := by
  decide

theorem supported_toUpper :
    supportedCountries.all (fun cc => strToUpper cc == cc) = true := by decide

theorem supported_catalog_nonempty :
    supportedCountries.all (fun cc => !((geoCatalog cc).getD []).isEmpty) = true := by
  decide

theorem supported_highDpr :
    supportedCountries.all (fun cc => allowsHighDpr cc) = true := by decide

theorem supported_4k_gates :
    supportedCountries.all (fun cc => allows4k cc || !geoAllow4k cc) = true := by decide

/-! ## Lemmas about the individual checks -/

theorem checkPlatform_nil {fp : Fingerprint}
    (h : platformOK fp.ua_platform fp.platform = true) :
    checkPlatformConsistency fp = [] := by
  simp [checkPlatformConsistency, h]

theorem checkLocaleTz_nil {fp : Fingerprint}
    (h : localeTzMismatch fp.locale fp.timezone = false) :
    checkLocaleTzConsistency fp = [] := by
  simp [checkLocaleTzConsistency, h]

theorem checkAccept_sev {fp : Fingerprint} {v : GeoViolation}
    (h : acceptLangMismatch fp.locale fp.accept_language = false)
    (hv : v ∈ checkAcceptLanguageLocale fp) : v.severity = .soft := by
  simp [checkAcceptLanguageLocale, h] at hv
  rw [hv.2]
  rfl

theorem checkMacosDpr_not_hard {fp : Fingerprint} {v : GeoViolation}
    (hv : v ∈ checkMacosDpr fp) : v.severity ≠ .hard := by
  simp [checkMacosDpr] at hv
  rcases hv with ⟨-, rfl⟩ | ⟨-, rfl⟩ <;> simp [softV, infoV]

theorem checkLocaleVs_nil {fp : Fingerprint} {cc : String}
    (h : localeCountryMatched cc fp.locale = true) :
    checkLocaleVsCountry fp cc = [] := by
  simp [checkLocaleVsCountry, h]

theorem checkTzVs_nil {fp : Fingerprint} {cc : String}
    (h : tzCountryMatched cc fp.timezone = true) :
    checkTzVsCountry fp cc = [] := by
  simp [checkTzVsCountry, h]

theorem check4k_not_hard {fp : Fingerprint} {cc : String} {v : GeoViolation}
    (hv : v ∈ check4kVsCountry fp cc) : v.severity ≠ .hard := by
  simp [check4kVsCountry] at hv
  rw [hv.2]
  simp [softV]

theorem checkDpr_not_hard {fp : Fingerprint} {cc : String} {v : GeoViolation}
    (hv : v ∈ checkDprVsCountry fp cc) : v.severity ≠ .hard := by
  simp [checkDprVsCountry] at hv
  rw [hv.2]
  simp [infoV]

/-- If all Hard guards pass, `validate` reports no Hard violation. -/
theorem validate_no_hard {fp : Fingerprint} {cc : String}
    (hup : strToUpper cc = cc)
    (hplat : platformOK fp.ua_platform fp.platform = true)
    (hentry : entryHardOK cc (fp.locale, fp.accept_language, fp.timezone) = true) :
    ∀ v ∈ validate fp (some cc), v.severity ≠ .hard := by
  intro v hv
  rw [validate, mem_sortViolations] at hv
  simp only [entryHardOK, Bool.and_eq_true, Bool.not_eq_true'] at hentry
  obtain ⟨⟨⟨h1, h2⟩, h3⟩, h4⟩ := hentry
  simp only [validateRaw, hup, checkPlatform_nil hplat, checkLocaleTz_nil h1,
    checkLocaleVs_nil h3, checkTzVs_nil h4, List.nil_append, List.append_nil,
    List.mem_append] at hv
  rcases hv with ((hv | hv) | hv) | hv
  · rw [checkAccept_sev h2 hv]; simp
  · exact checkMacosDpr_not_hard hv
  · exact check4k_not_hard hv
  · exact checkDpr_not_hard hv

/-! ## Lemmas about `enforce_geo` -/

theorem enforceGeo_none {fp : Fingerprint} {cc : String} {G : Nat → Nat → Nat}
    (h : geoCatalog (strToUpper cc) = none) : enforceGeo fp cc G = fp := by
  unfold enforceGeo
  simp only [h]

/-- Exact characterization of `enforce_geo` on a supported country. -/
theorem enforceGeo_eq {fp : Fingerprint} {cc : String} {G : Nat → Nat → Nat}
    {es : List (String × String × String)}
    (h : geoCatalog (strToUpper cc) = some es) :
    enforceGeo fp cc G =
      (let g := G (fp.seed ^^^ 0x9e0c0de0)
       let e := es.getD (g 0 % es.length) ("", "", "")
       let fp1 := { fp with locale := e.1, accept_language := e.2.1, timezone := e.2.2 }
       if geoAllow4k (strToUpper cc) = false ∧ 3840 ≤ fp.screen_width then
         { fp1 with screen_width := 1920, screen_height := 1080, viewport_width := 1920,
                    viewport_height := 1080 - (88 + 40 + g 1 % 20),
                    pixel_ratio := if g 2 % 2 == 0 then 1.25 else 1.0 }
       else fp1) := by
  unfold enforceGeo
  simp only [h, genRange, genBool, Nat.zero_add, Nat.sub_zero]

/-! ## Lemmas about the generator -/

theorem buildUa_platformOK (r : RngO) (os : String) :
    platformOK (buildUa r os).2.2.2.1 (buildUa r os).2.2.1 = true := by
  unfold buildUa
  simp only [genRange, genRangeI]
  split <;> rfl

/-- Every generated fingerprint has a consistent
`ua_platform` / `platform` pair. -/
theorem generate_platformOK (s : Nat) (G : Nat → Nat → Nat) :
    platformOK (generate s G).ua_platform (generate s G).platform = true :=
  buildUa_platformOK (genOsP s G).1 (genOsP s G).2

theorem pickScreen_vw (r : RngO) : (pickScreen r).2.2.2.1 = (pickScreen r).2.1 := rfl

theorem pickScreen_vh (r : RngO) : (pickScreen r).2.2.2.2.1 ≤ (pickScreen r).2.2.1 :=
  Nat.sub_le _ _

/-- The viewport-within-screen invariant. -/
def viewInv (fp : Fingerprint) : Prop :=
  fp.viewport_width ≤ fp.screen_width ∧ fp.viewport_height ≤ fp.screen_height

theorem generate_viewInv (s : Nat) (G : Nat → Nat → Nat) : viewInv (generate s G) :=
  ⟨le_of_eq (pickScreen_vw ((genWebglP s G).1)), pickScreen_vh ((genWebglP s G).1)⟩

theorem enforceGeo_viewInv {fp : Fingerprint} {cc : String} {G : Nat → Nat → Nat}
    (h : viewInv fp) : viewInv (enforceGeo fp cc G) := by
  cases hcat : geoCatalog (strToUpper cc) with
  | none => rw [enforceGeo_none hcat]; exact h
  | some es =>
    rw [enforceGeo_eq hcat]
    dsimp only
    split_ifs <;>
      first
        | exact ⟨le_refl _, Nat.sub_le _ _⟩
        | exact h

theorem acFix_viewInv {fp : Fingerprint} {cc : String} {seed : Nat} {G : Nat → Nat → Nat}
    (h : viewInv fp) : viewInv (acFix fp cc seed G) := by
  unfold acFix
  have hA := @enforceGeo_viewInv fp cc G h
  dsimp only
  split_ifs <;>
    first
      | exact ⟨le_refl _, Nat.sub_le _ _⟩
      | exact hA

theorem autoCorrect_viewInv {fp : Fingerprint} {cc : String} {seed : Nat}
    {G : Nat → Nat → Nat} (h : viewInv fp) : viewInv (autoCorrect fp cc seed G).1 := by
  unfold autoCorrect
  dsimp only
  split_ifs
  · exact h
  · exact acFix_viewInv h

/-! ## Supported-country facts in elementwise form -/

theorem supported_facts {cc : String} (h : cc ∈ supportedCountries) :
    strToUpper cc = cc ∧ (geoCatalog cc).getD [] ≠ [] ∧ allowsHighDpr cc = true ∧
      (allows4k cc = true ∨ geoAllow4k cc = false) := by
  have h1 := List.all_eq_true.mp supported_toUpper cc h
  have h2 := List.all_eq_true.mp supported_catalog_nonempty cc h
  have h3 := List.all_eq_true.mp supported_highDpr cc h
  have h4 := List.all_eq_true.mp supported_4k_gates cc h
  exact ⟨by simpa using h1, by simpa using h2, by simpa using h3, by simpa using h4⟩

theorem supported_entry_ok {cc : String} (h : cc ∈ supportedCountries)
    {e : String × String × String} (he : e ∈ (geoCatalog cc).getD []) :
    entryHardOK cc e = true :=
  List.all_eq_true.mp (List.all_eq_true.mp supported_entries_ok cc h) e he

theorem supported_catalog_some {cc : String} (h : cc ∈ supportedCountries) :
    ∃ es, geoCatalog cc = some es ∧ es ≠ [] := by
  obtain ⟨-, h2, -, -⟩ := supported_facts h
  cases hcase : geoCatalog cc with
  | none => rw [hcase] at h2; simp at h2
  | some es => rw [hcase] at h2; exact ⟨es, rfl, by simpa using h2⟩

/-! ## The enforce-geo → validate pipeline has no Hard violations -/

theorem enforceGeo_entry {fp : Fingerprint} {cc : String} {G : Nat → Nat → Nat}
    {es : List (String × String × String)}
    (hcat : geoCatalog (strToUpper cc) = some es) (hne : es ≠ []) :
    ∃ e ∈ es,
      (enforceGeo fp cc G).locale = e.1 ∧
      (enforceGeo fp cc G).accept_language = e.2.1 ∧
      (enforceGeo fp cc G).timezone = e.2.2 ∧
      (enforceGeo fp cc G).ua_platform = fp.ua_platform ∧
      (enforceGeo fp cc G).platform = fp.platform ∧
      (enforceGeo fp cc G).seed = fp.seed := by
  have hlen : G (fp.seed ^^^ 0x9e0c0de0) 0 % es.length < es.length :=
    Nat.mod_lt _ (List.length_pos.mpr hne)
  refine ⟨es.getD (G (fp.seed ^^^ 0x9e0c0de0) 0 % es.length) ("", "", ""), ?_, ?_⟩
  · rw [List.getD_eq_getElem _ _ hlen]
    exact List.getElem_mem _
  · rw [enforceGeo_eq hcat]
    dsimp only
    split_ifs <;> exact ⟨rfl, rfl, rfl, rfl, rfl, rfl⟩

/-- After `enforce_geo` for a supported country, a generated fingerprint
validates with zero Hard violations. -/
theorem enforced_no_hard {s : Nat} {G : Nat → Nat → Nat} {cc : String}
    (h : cc ∈ supportedCountries) :
    ∀ v ∈ validate (enforceGeo (generate s G) cc G) (some cc), v.severity ≠ .hard := by
  obtain ⟨hup, -, -, -⟩ := supported_facts h
  obtain ⟨es, hes, hne⟩ := supported_catalog_some h
  have hcat : geoCatalog (strToUpper cc) = some es := by rw [hup]; exact hes
  obtain ⟨e, hmem, hl, ha, ht, hua, hpl, -⟩ :=
    @enforceGeo_entry (generate s G) cc G es hcat hne
  have hentry : entryHardOK cc
      ((enforceGeo (generate s G) cc G).locale,
       (enforceGeo (generate s G) cc G).accept_language,
       (enforceGeo (generate s G) cc G).timezone) = true := by
    rw [hl, ha, ht]
    have := supported_entry_ok h (e := e) (by rw [hes]; simpa using hmem)
    simpa using this
  have hplat : platformOK (enforceGeo (generate s G) cc G).ua_platform
      (enforceGeo (generate s G) cc G).platform = true := by
    rw [hua, hpl]; exact generate_platformOK s G
  exact validate_no_hard hup hplat hentry

/-! ## Second-pass no-op lemmas for `auto_correct` -/

theorem autoCorrect_of_nil {fp : Fingerprint} {cc : String} {s : Nat} {G : Nat → Nat → Nat}
    (hb : validate fp (some cc) = []) : autoCorrect fp cc s G = (fp, ⟨[], []⟩) := by
  unfold autoCorrect
  rw [if_pos hb]

theorem autoCorrect_of_ne {fp : Fingerprint} {cc : String} {s : Nat} {G : Nat → Nat → Nat}
    (hb : validate fp (some cc) ≠ []) :
    autoCorrect fp cc s G =
      (acFix fp cc s G,
       ⟨(validate fp (some cc)).filter
          (fun v => !((validate (acFix fp cc s G) (some cc)).any
            (fun a => a.code == v.code))),
        validate (acFix fp cc s G) (some cc)⟩) := by
  unfold autoCorrect
  rw [if_neg hb]

theorem enforceGeo_seed (fp : Fingerprint) (cc : String) (G : Nat → Nat → Nat) :
    (enforceGeo fp cc G).seed = fp.seed := by
  cases hcat : geoCatalog (strToUpper cc) with
  | none => rw [enforceGeo_none hcat]
  | some es =>
    rw [enforceGeo_eq hcat]
    dsimp only
    split_ifs <;> rfl

theorem acFix_seed (fp : Fingerprint) (cc : String) (s : Nat) (G : Nat → Nat → Nat) :
    (acFix fp cc s G).seed = fp.seed := by
  unfold acFix
  dsimp only
  split_ifs <;> exact enforceGeo_seed fp cc G

theorem acFix_triple (fp : Fingerprint) (cc : String) (s : Nat) (G : Nat → Nat → Nat) :
    ((acFix fp cc s G).locale, (acFix fp cc s G).accept_language,
      (acFix fp cc s G).timezone) =
    ((enforceGeo fp cc G).locale, (enforceGeo fp cc G).accept_language,
      (enforceGeo fp cc G).timezone) := by
  unfold acFix
  dsimp only
  split_ifs <;> rfl

theorem enforceGeo_triple {fp : Fingerprint} {cc : String} {G : Nat → Nat → Nat}
    {es : List (String × String × String)}
    (hcat : geoCatalog (strToUpper cc) = some es) :
    ((enforceGeo fp cc G).locale, (enforceGeo fp cc G).accept_language,
      (enforceGeo fp cc G).timezone) =
    es.getD (G (fp.seed ^^^ 0x9e0c0de0) 0 % es.length) ("", "", "") := by
  rw [enforceGeo_eq hcat]
  dsimp only
  split_ifs <;> rfl

theorem enforceGeo_sw_lt {fp : Fingerprint} {cc : String} {G : Nat → Nat → Nat}
    {es : List (String × String × String)}
    (hcat : geoCatalog (strToUpper cc) = some es)
    (hga : geoAllow4k (strToUpper cc) = false) :
    (enforceGeo fp cc G).screen_width < 3840 := by
  rw [enforceGeo_eq hcat]
  dsimp only
  split_ifs with h1 h2
  · show (1920 : Nat) < 3840
    norm_num
  · show (1920 : Nat) < 3840
    norm_num
  · show fp.screen_width < 3840
    have : ¬3840 ≤ fp.screen_width := fun hle => h1 ⟨hga, hle⟩
    omega

theorem acFix_sw_lt {fp : Fingerprint} {cc : String} {s : Nat} {G : Nat → Nat → Nat}
    {es : List (String × String × String)}
    (hcat : geoCatalog (strToUpper cc) = some es)
    (hga : geoAllow4k (strToUpper cc) = false) :
    (acFix fp cc s G).screen_width < 3840 := by
  unfold acFix
  dsimp only
  split_ifs <;>
    first
      | (show (1920 : Nat) < 3840; norm_num)
      | (show (enforceGeo fp cc G).screen_width < 3840; exact enforceGeo_sw_lt hcat hga)

/-- Re-running `enforce_geo` on a fingerprint whose locale triple already
equals the (deterministically indexed) catalog entry and whose screen passes
the 4K gate is the identity. -/
theorem enforceGeo_noop {fp : Fingerprint} {cc : String} {G : Nat → Nat → Nat}
    {es : List (String × String × String)}
    (hcat : geoCatalog (strToUpper cc) = some es)
    (hf : (fp.locale, fp.accept_language, fp.timezone) =
          es.getD (G (fp.seed ^^^ 0x9e0c0de0) 0 % es.length) ("", "", ""))
    (h4 : geoAllow4k (strToUpper cc) = true ∨ fp.screen_width < 3840) :
    enforceGeo fp cc G = fp := by
  rw [enforceGeo_eq hcat]
  dsimp only
  have hcond : ¬(geoAllow4k (strToUpper cc) = false ∧ 3840 ≤ fp.screen_width) := by
    rintro ⟨hga, hle⟩
    rcases h4 with h4 | h4
    · simp [h4] at hga
    · omega
  rw [if_neg hcond]
  have h1 : fp.locale =
      (es.getD (G (fp.seed ^^^ 0x9e0c0de0) 0 % es.length) ("", "", "")).1 :=
    congrArg Prod.fst hf
  have h2 : fp.accept_language =
      (es.getD (G (fp.seed ^^^ 0x9e0c0de0) 0 % es.length) ("", "", "")).2.1 :=
    congrArg (fun t => t.2.1) hf
  have h3 : fp.timezone =
      (es.getD (G (fp.seed ^^^ 0x9e0c0de0) 0 % es.length) ("", "", "")).2.2 :=
    congrArg (fun t => t.2.2) hf
  rw [← h1, ← h2, ← h3]

theorem acFix_noop {fp : Fingerprint} {cc : String} {s : Nat} {G : Nat → Nat → Nat}
    (hgeo : enforceGeo fp cc G = fp)
    (h4k : ¬(is4kOrAbove fp.screen_width fp.screen_height = true ∧
      allows4k (strToUpper cc) = false))
    (hdpr : allowsHighDpr (strToUpper cc) = true) :
    acFix fp cc s G = fp := by
  unfold acFix
  dsimp only
  rw [hgeo, if_neg h4k, if_neg (by simp [hdpr])]

theorem any_code_self {v : GeoViolation} {l : List GeoViolation} (hv : v ∈ l) :
    (l.any fun a => a.code == v.code) = true :=
  List.any_eq_true.mpr ⟨v, hv, by simp⟩

/-- The heart of the idempotence analysis: a second `auto_correct` pass for
the same supported country fixes nothing and reports the same residual. -/
theorem autoCorrect_second {fp0 : Fingerprint} {cc : String} {s1 s2 : Nat}
    {G : Nat → Nat → Nat} (h : cc ∈ supportedCountries) :
    (autoCorrect (autoCorrect fp0 cc s1 G).1 cc s2 G).2.fixed = [] ∧
    (autoCorrect (autoCorrect fp0 cc s1 G).1 cc s2 G).2.residual =
      (autoCorrect fp0 cc s1 G).2.residual := by
  obtain ⟨hup, -, hdpr, h4g⟩ := supported_facts h
  obtain ⟨es, hes, hne⟩ := supported_catalog_some h
  have hcat : geoCatalog (strToUpper cc) = some es := by rw [hup]; exact hes
  by_cases hb : validate fp0 (some cc) = []
  · rw [autoCorrect_of_nil hb]
    dsimp only
    rw [autoCorrect_of_nil hb]
    exact ⟨rfl, rfl⟩
  · rw [autoCorrect_of_ne hb]
    dsimp only
    have hseed : (acFix fp0 cc s1 G).seed = fp0.seed := acFix_seed fp0 cc s1 G
    have htriple := (acFix_triple fp0 cc s1 G).trans (enforceGeo_triple hcat)
    have hgeo2 : enforceGeo (acFix fp0 cc s1 G) cc G = acFix fp0 cc s1 G := by
      refine enforceGeo_noop hcat (by rw [hseed]; exact htriple) ?_
      cases hga : geoAllow4k (strToUpper cc) with
      | true => exact Or.inl rfl
      | false => exact Or.inr (acFix_sw_lt hcat hga)
    have h4k2 : ¬(is4kOrAbove (acFix fp0 cc s1 G).screen_width
        (acFix fp0 cc s1 G).screen_height = true ∧ allows4k (strToUpper cc) = false) := by
      rintro ⟨hik, hak⟩
      have hga : geoAllow4k (strToUpper cc) = false := by
        rw [hup]
        rcases h4g with h4g | h4g
        · rw [hup, h4g] at hak; simp at hak
        · exact h4g
      have hsw := @acFix_sw_lt fp0 cc s1 G es hcat hga
      simp only [is4kOrAbove, decide_eq_true_eq] at hik
      omega
    have hfix2 : acFix (acFix fp0 cc s1 G) cc s2 G = acFix fp0 cc s1 G :=
      acFix_noop hgeo2 h4k2 (by rw [hup]; exact hdpr)
    by_cases hb2 : validate (acFix fp0 cc s1 G) (some cc) = []
    · rw [autoCorrect_of_nil hb2]
      exact ⟨rfl, hb2.symm⟩
    · rw [autoCorrect_of_ne hb2]
      dsimp only
      rw [hfix2]
      constructor
      · rw [List.filter_eq_nil_iff]
        intro v hv
        simp [any_code_self hv]
      · rfl

/-! ## Concrete artifacts used by witnesses and counterexamples -/

/-- The all-zero draw-stream family. -/
def oracleZero : Nat → Nat → Nat := fun _ _ => 0

/-- A draw-stream family under which `generate` picks macOS with a
2560×1440 screen at pixel ratio 1.0 (a combination the screen pool
offers). -/
def oracleMacLowDpr : Nat → Nat → Nat :=
  fun _ i => if i = 0 then 14 else if i = 12 then 40 else 0

/-- A concrete, internally consistent German macOS fingerprint. -/
def fpDemo : Fingerprint :=
  { seed := 7
    canvas_noise := 0.5
    webgl_vendor := "Apple"
    webgl_renderer := "Apple M2"
    webgl_noise := 0.05
    audio_noise := 0.005
    font_subset := ["Arial", "Helvetica"]
    user_agent := "Mozilla/5.0 (Macintosh; Intel Mac OS X 10_15_7) AppleWebKit/537.36 (KHTML, like Gecko) Chrome/131.0.0.0 Safari/537.36"
    platform := "MacIntel"
    accept_language := "de-DE,de;q=0.9,en;q=0.8"
    hardware_concurrency := 8
    device_memory := 8
    screen_width := 1920
    screen_height := 1080
    viewport_width := 1920
    viewport_height := 950
    color_depth := 24
    pixel_ratio := 1.0
    webrtc_mode := .fakeMdns
    webrtc_fake_mdns := some "0f7ad2b1-9c33-4f21-8a5e-3d2b40a1c9ff.local"
    webrtc_fake_ip := some "192.168.1.23"
    timezone := "Europe/Berlin"
    locale := "de-DE"
    ua_brands := [⟨"Chromium", "131"⟩, ⟨"Google Chrome", "131"⟩]
    ua_mobile := false
    ua_platform := "macOS"
    ua_platform_version := "15.0.0"
    ua_architecture := "arm"
    ua_bitness := "64"
    permissions := [("geolocation", "prompt"), ("clipboard-write", "granted")] }

/-! ## The claims -/

/-- C1: `generate` is a pure deterministic function of its seed.  Two calls
with the same seed agree on every field — the result is one value, equal to
itself field-for-field, noise channels included — and the entropy-chain
outputs (the `f64`-rounded noise values) do not depend on the categorical
draw stream at all, only on the seed.  In the shallow embedding the
`SmallRng` stream is an explicit input (`G`); in the program it is itself a
pure function of the seed, so determinism over seeds follows. -/
theorem claim_C1_generate_deterministic :
    ∀ (s : Nat) (G G2 : Nat → Nat → Nat),
      generate s G = generate s G ∧
      (generate s G).canvas_noise = (generate s G2).canvas_noise ∧
      (generate s G).webgl_noise = (generate s G2).webgl_noise ∧
      (generate s G).audio_noise = (generate s G2).audio_noise ∧
      (generate s G).seed = s :=
  fun _ _ _ => ⟨rfl, rfl, rfl, rfl, rfl⟩

/-- C2: for every seed, every draw stream and every country of
`enforce_geo`'s 20-entry catalog, validating the geo-enforced fingerprint
against that country yields no Hard-severity violation. -/
theorem claim_C2_enforce_geo_no_hard :
    ∀ (s : Nat) (G : Nat → Nat → Nat) (cc : String), cc ∈ supportedCountries →
      ∀ v ∈ validate (enforceGeo (generate s G) cc G) (some cc), v.severity ≠ .hard :=
  fun _ _ _ h => enforced_no_hard h

theorem claim_C2_witness :
    "US" ∈ supportedCountries ∧
    (validate (enforceGeo (generate 3 oracleZero) "US" oracleZero) (some "US")).filter
      (fun v => v.severity == Severity.hard) = [] := by
  refine ⟨by decide, ?_⟩
  rw [List.filter_eq_nil_iff]
  intro v hv
  simpa using claim_C2_enforce_geo_no_hard 3 oracleZero "US" (by decide) v hv

/-- C3 counterexample: from a generated macOS identity with a 2560-wide
screen at pixel ratio 1.0, the second `auto_correct` pass for "US" returns
a non-empty `residual` (the Info violation `MACOS_HIGH_RES_LOW_DPR`
persists — the correction pipeline never touches it), refuting the claim
that the second call returns an empty residual list. -/
theorem claim_C3_counterexample :
    (autoCorrect (autoCorrect (generate 0 oracleMacLowDpr) "US" 0 oracleMacLowDpr).1
      "US" 0 oracleMacLowDpr).2.residual ≠ [] := by
  decide

/-- C3 (amended): for every identity produced by `generate`, every
supported country and every seed, a second `auto_correct` with the same
country and seed fixes nothing (`fixed = []`) and reports exactly the same
residual list as the first call; the residual need not be empty, since
Soft/Info violations the pipeline cannot repair persist. -/
theorem claim_C3_amended :
    ∀ (s : Nat) (G : Nat → Nat → Nat) (cc : String) (seed : Nat),
      cc ∈ supportedCountries →
      (autoCorrect (autoCorrect (generate s G) cc seed G).1 cc seed G).2.fixed = [] ∧
      (autoCorrect (autoCorrect (generate s G) cc seed G).1 cc seed G).2.residual =
        (autoCorrect (generate s G) cc seed G).2.residual :=
  fun _ _ _ _ h => autoCorrect_second h

theorem claim_C3_witness :
    "US" ∈ supportedCountries ∧
    (autoCorrect (autoCorrect (generate 5 oracleZero) "US" 5 oracleZero).1
      "US" 5 oracleZero).2.fixed = [] ∧
    (autoCorrect (autoCorrect (generate 5 oracleZero) "US" 5 oracleZero).1
      "US" 5 oracleZero).2.residual =
      (autoCorrect (generate 5 oracleZero) "US" 5 oracleZero).2.residual :=
  ⟨by decide, claim_C3_amended 5 oracleZero "US" 5 (by decide)⟩

/-- C4: viewport never exceeds screen on either axis — after `generate`,
still after `enforce_geo` with an arbitrary country code, and still after
`auto_correct`. -/
theorem claim_C4_viewport_bounds :
    ∀ (s : Nat) (G : Nat → Nat → Nat) (cc : String) (seed : Nat),
      ((generate s G).viewport_width ≤ (generate s G).screen_width ∧
        (generate s G).viewport_height ≤ (generate s G).screen_height) ∧
      ((enforceGeo (generate s G) cc G).viewport_width ≤
          (enforceGeo (generate s G) cc G).screen_width ∧
        (enforceGeo (generate s G) cc G).viewport_height ≤
          (enforceGeo (generate s G) cc G).screen_height) ∧
      ((autoCorrect (generate s G) cc seed G).1.viewport_width ≤
          (autoCorrect (generate s G) cc seed G).1.screen_width ∧
        (autoCorrect (generate s G) cc seed G).1.viewport_height ≤
          (autoCorrect (generate s G) cc seed G).1.screen_height) :=
  fun s G _ _ =>
    ⟨generate_viewInv s G, enforceGeo_viewInv (generate_viewInv s G),
      autoCorrect_viewInv (generate_viewInv s G)⟩

/-- C5 counterexample: at seed 435 the twelve canvas-channel byte draws of
the entropy chain sum to 754 ≤ 768, the −3σ clamp engages, and the `f64`
interval map returns exactly its configured lower bound, the `f64` value
of the literal `0.01`: `canvas_noise` is equal to an interval bound, not
strictly inside the open interval, refuting the claim. -/
theorem claim_C5_counterexample :
    (generate 435 oracleZero).canvas_noise = fl64 0.01 ∧
      ¬fl64 0.01 < (generate 435 oracleZero).canvas_noise := by
  have heq : (generate 435 oracleZero).canvas_noise =
      noiseFromSum (gaussSum (genQ1 435).1 "canvas").2 (fl64 0.01) (fl64 0.15) :=
    quantumNoise_2 (genQ1 435).1 "canvas" (fl64 0.01) (fl64 0.15)
  have hsum : (gaussSum (genQ1 435).1 "canvas").2 = 754 := by decide
  have hval : (generate 435 oracleZero).canvas_noise = fl64 0.01 := by
    rw [heq, hsum, noiseFromSum_low 754 _ _ (by norm_num)]
    decide
  exact ⟨hval, by rw [hval]; exact lt_irrefl _⟩

/-- C5 (amended): modelling each inexact `f64` step of `quantum_noise` by
IEEE-754 round-to-nearest-even (`fl64`), for every seed `canvas_noise`
lies in the CLOSED interval `[fl64 0.01, fl64 0.15]` and `webgl_noise` in
`[fl64 0.01, fl64 0.10]` — the `f64` values of the configured bounds, both
attained when the recentred Gaussian sum clamps at ∓3σ — while
`audio_noise` lies in `[fl64 0.001, audioNoiseMax]`, where
`audioNoiseMax = fl64 0.010 + 2⁻⁵⁹` (`0.010000000000000002`) is one ulp
ABOVE the configured bound: `0.001 + 1.0 * (0.010 - 0.001)` does not round
to `0.010`.  The `+3σ` case is reached at real seeds: at seed 401 the
audio sum is 2305 and `audio_noise = audioNoiseMax`, strictly outside the
claimed interval. -/
theorem claim_C5_amended :
    ∀ (s : Nat) (G : Nat → Nat → Nat),
      fl64 0.01 ≤ (generate s G).canvas_noise ∧
      (generate s G).canvas_noise ≤ fl64 0.15 ∧
      fl64 0.01 ≤ (generate s G).webgl_noise ∧
      (generate s G).webgl_noise ≤ fl64 0.10 ∧
      fl64 0.001 ≤ (generate s G).audio_noise ∧
      (generate s G).audio_noise ≤ audioNoiseMax ∧
      audioNoiseMax = fl64 0.010 + 1 / 2 ^ 59 ∧
      fl64 0.010 < audioNoiseMax ∧
      (generate 401 G).audio_noise = audioNoiseMax := by
  intro s G
  have hc : (generate s G).canvas_noise =
      noiseFromSum (gaussSum (genQ1 s).1 "canvas").2 (fl64 0.01) (fl64 0.15) :=
    quantumNoise_2 _ _ _ _
  have hw : (generate s G).webgl_noise =
      noiseFromSum (gaussSum (genCanvasP s).1 "webgl").2 (fl64 0.01) (fl64 0.10) :=
    quantumNoise_2 _ _ _ _
  have ha : (generate s G).audio_noise =
      noiseFromSum (gaussSum (genWebglNoiseP s).1 "audio").2 (fl64 0.001) (fl64 0.010) :=
    quantumNoise_2 _ _ _ _
  have ha401 : (generate 401 G).audio_noise =
      noiseFromSum (gaussSum (genWebglNoiseP 401).1 "audio").2 (fl64 0.001) (fl64 0.010) := by
    have h0 : (generate 401 G).audio_noise =
        (quantumNoise (genWebglNoiseP 401).1 "audio" (fl64 0.001) (fl64 0.010)).2 := rfl
    rw [h0]
    exact quantumNoise_2 _ _ _ _
  have hsum401 : (gaussSum (genWebglNoiseP 401).1 "audio").2 = 2305 := by decide
  obtain ⟨c1, c2⟩ := canvasNoiseBounds (gaussSum (genQ1 s).1 "canvas").2
  obtain ⟨w1, w2⟩ := webglNoiseBounds (gaussSum (genCanvasP s).1 "webgl").2
  obtain ⟨a1, a2⟩ := audioNoiseBounds (gaussSum (genWebglNoiseP s).1 "audio").2
  refine ⟨?_, ?_, ?_, ?_, ?_, ?_, by decide, by decide, ?_⟩
  · rw [hc]; exact c1
  · rw [hc]; exact c2
  · rw [hw]; exact w1
  · rw [hw]; exact w2
  · rw [ha]; exact a1
  · rw [ha]; exact a2
  · rw [ha401, hsum401, noiseFromSum_top 2305 _ _ (by norm_num)]
    unfold audioNoiseMax
    exact (noiseFromSum_top 2304 _ _ (by norm_num)).symm

/-- C6 counterexample: `mutate` clamps the canvas channel to
`[0.005, 0.30]`, not to the generation interval `[0.01, 0.15]` the claim
states: on a fingerprint whose canvas noise is 0.5, the mutated value is
0.30 — outside `[0.01, 0.15]` — whatever the entropy draws are. -/
theorem claim_C6_counterexample :
    ¬(0.01 ≤ (mutate fpDemo).canvas_noise ∧ (mutate fpDemo).canvas_noise ≤ 0.15) := by
  have hδ : fl64 (-0.01) ≤ (mutateCanvasD fpDemo.seed).2 ∧
      (mutateCanvasD fpDemo.seed).2 ≤ fl64 0.01 := by
    rw [show (mutateCanvasD fpDemo.seed).2 =
      noiseFromSum (gaussSum (mutateQ0 fpDemo.seed) "mutate-canvas").2
        (fl64 (-0.01)) (fl64 0.01) from
      quantumNoise_2 _ _ _ _]
    exact mutateCanvasDeltaBounds _
  have hlo : (-(2 : ℚ)/100) ≤ fl64 (-0.01) := by decide
  have hhi : fl64 0.01 ≤ (2 : ℚ)/100 := by decide
  have hc : (mutate fpDemo).canvas_noise =
      ratClamp (0.5 + (mutateCanvasD fpDemo.seed).2) 0.005 0.30 := rfl
  have hval : ratClamp (0.5 + (mutateCanvasD fpDemo.seed).2) 0.005 0.30 = 0.30 := by
    unfold ratClamp
    rw [if_neg (by linarith [hδ.1, hlo]), if_pos (by linarith [hδ.1, hlo])]
  rintro ⟨-, h2⟩
  rw [hc, hval] at h2
  norm_num at h2

/-- C6 (amended): `mutate` changes only the three noise channels, never the
seed or any other field; each new value is the old one plus a delta derived
deterministically from `seed + 1` (the `mutateXxxD` stages are functions of
the seed alone), clamped to `[0.005, 0.30]` for canvas, `[0.005, 0.15]` for
webgl and `[0.001, 0.05]` for audio — wider intervals than the generation
ones the claim names. -/
theorem claim_C6_amended :
    ∀ fp : Fingerprint,
      (mutate fp).seed = fp.seed ∧
      (mutate fp).canvas_noise =
        ratClamp (fp.canvas_noise + (mutateCanvasD fp.seed).2) 0.005 0.30 ∧
      (mutate fp).webgl_noise =
        ratClamp (fp.webgl_noise + (mutateWebglD fp.seed).2) 0.005 0.15 ∧
      (mutate fp).audio_noise =
        ratClamp (fp.audio_noise + (mutateAudioD fp.seed).2) 0.001 0.05 ∧
      (0.005 ≤ (mutate fp).canvas_noise ∧ (mutate fp).canvas_noise ≤ 0.30) ∧
      (0.005 ≤ (mutate fp).webgl_noise ∧ (mutate fp).webgl_noise ≤ 0.15) ∧
      (0.001 ≤ (mutate fp).audio_noise ∧ (mutate fp).audio_noise ≤ 0.05) ∧
      (mutate fp).webgl_vendor = fp.webgl_vendor ∧
      (mutate fp).webgl_renderer = fp.webgl_renderer ∧
      (mutate fp).font_subset = fp.font_subset ∧
      (mutate fp).user_agent = fp.user_agent ∧
      (mutate fp).platform = fp.platform ∧
      (mutate fp).accept_language = fp.accept_language ∧
      (mutate fp).hardware_concurrency = fp.hardware_concurrency ∧
      (mutate fp).device_memory = fp.device_memory ∧
      (mutate fp).screen_width = fp.screen_width ∧
      (mutate fp).screen_height = fp.screen_height ∧
      (mutate fp).viewport_width = fp.viewport_width ∧
      (mutate fp).viewport_height = fp.viewport_height ∧
      (mutate fp).color_depth = fp.color_depth ∧
      (mutate fp).pixel_ratio = fp.pixel_ratio ∧
      (mutate fp).webrtc_mode = fp.webrtc_mode ∧
      (mutate fp).webrtc_fake_mdns = fp.webrtc_fake_mdns ∧
      (mutate fp).webrtc_fake_ip = fp.webrtc_fake_ip ∧
      (mutate fp).timezone = fp.timezone ∧
      (mutate fp).locale = fp.locale ∧
      (mutate fp).ua_brands = fp.ua_brands ∧
      (mutate fp).ua_mobile = fp.ua_mobile ∧
      (mutate fp).ua_platform = fp.ua_platform ∧
      (mutate fp).ua_platform_version = fp.ua_platform_version ∧
      (mutate fp).ua_architecture = fp.ua_architecture ∧
      (mutate fp).ua_bitness = fp.ua_bitness ∧
      (mutate fp).permissions = fp.permissions := by
  intro fp
  exact ⟨rfl, rfl, rfl, rfl, ratClamp_le _ _ _ (by norm_num),
    ratClamp_le _ _ _ (by norm_num), ratClamp_le _ _ _ (by norm_num), rfl, rfl,
    rfl, rfl, rfl, rfl, rfl, rfl, rfl, rfl, rfl, rfl, rfl, rfl, rfl, rfl, rfl,
    rfl, rfl, rfl, rfl, rfl, rfl, rfl, rfl, rfl⟩

/-- C7 counterexample: an unrecognized country code does produce a
country-specific violation: with the English-only fallback whitelist, a
German-locale fingerprint validated against "ZZ" is flagged
`LOCALE_COUNTRY_MISMATCH`, contradicting the claim that no such violation
can occur. -/
theorem claim_C7_counterexample :
    "LOCALE_COUNTRY_MISMATCH" ∈ (validate fpDemo (some "ZZ")).map (fun v => v.code) := by
  decide

/-- C7 (amended): for a country code outside every per-country table
(locale table falling back to `["en-"]`, timezone table empty, 4K
allow-list false, high-DPR list true), the timezone and high-DPR checks
yield no violations and all internal checks still run, but the locale check
still fires through the English-only fallback and the 4K check still flags
4K screens: the violation list is a permutation of the internal violations
plus those two country checks. -/
theorem claim_C7_amended :
    ∀ (fp : Fingerprint) (cc : String),
      allowedLocalePfxs (strToUpper cc) = ["en-"] →
      allowedTzPfxs (strToUpper cc) = [] →
      allows4k (strToUpper cc) = false →
      allowsHighDpr (strToUpper cc) = true →
      checkTzVsCountry fp (strToUpper cc) = [] ∧
      checkDprVsCountry fp (strToUpper cc) = [] ∧
      List.Perm (validate fp (some cc))
        (validate fp none ++ checkLocaleVsCountry fp (strToUpper cc) ++
          check4kVsCountry fp (strToUpper cc)) := by
  intro fp cc _hl ht _h4 hd
  have htz : checkTzVsCountry fp (strToUpper cc) = [] := by
    unfold checkTzVsCountry
    rw [ht]
    simp
  have hdpr : checkDprVsCountry fp (strToUpper cc) = [] := by
    unfold checkDprVsCountry
    rw [if_neg]
    rintro ⟨-, hx⟩
    rw [hd] at hx
    simp at hx
  refine ⟨htz, hdpr, ?_⟩
  have hraw : validateRaw fp (some cc) =
      validateRaw fp none ++ checkLocaleVsCountry fp (strToUpper cc) ++
        check4kVsCountry fp (strToUpper cc) := by
    simp [validateRaw, htz, hdpr]
  refine (sortViolations_perm _).trans ?_
  rw [show validate fp none = sortViolations (validateRaw fp none) from rfl, hraw]
  exact List.Perm.append
    (List.Perm.append (sortViolations_perm _).symm (List.Perm.refl _)) (List.Perm.refl _)

theorem claim_C7_witness :
    allowedLocalePfxs (strToUpper "ZZ") = ["en-"] ∧
    allowedTzPfxs (strToUpper "ZZ") = [] ∧
    allows4k (strToUpper "ZZ") = false ∧
    allowsHighDpr (strToUpper "ZZ") = true ∧
    (checkTzVsCountry fpDemo (strToUpper "ZZ") = [] ∧
      checkDprVsCountry fpDemo (strToUpper "ZZ") = [] ∧
      List.Perm (validate fpDemo (some "ZZ"))
        (validate fpDemo none ++ checkLocaleVsCountry fpDemo (strToUpper "ZZ") ++
          check4kVsCountry fpDemo (strToUpper "ZZ"))) :=
  ⟨by decide, by decide, by decide, by decide,
    claim_C7_amended fpDemo "ZZ" (by decide) (by decide) (by decide) (by decide)⟩

/-- C8: for every fingerprint and every country code outside the catalog
after uppercase normalization, `enforce_geo` returns the fingerprint with
every field unchanged — a silent no-op, not an error. -/
theorem claim_C8_unknown_geo_noop :
    ∀ (fp : Fingerprint) (cc : String) (G : Nat → Nat → Nat),
      geoCatalog (strToUpper cc) = none → enforceGeo fp cc G = fp :=
  fun _ _ _ h => enforceGeo_none h

theorem claim_C8_witness :
    geoCatalog (strToUpper "zz") = none ∧ enforceGeo fpDemo "zz" oracleZero = fpDemo :=
  ⟨by decide, claim_C8_unknown_geo_noop fpDemo "zz" oracleZero (by decide)⟩

/-- The per-severity score penalty the claim describes. -/
def sevPenalty : Severity → ℚ
  | .hard => 0.50
  | .soft => 0.20
  | .info => 0.05

/-- C9: `consistency_score` equals 1 minus the summed per-severity
penalties of `validate`'s result, floored at 0; it always lies in `[0, 1]`
and equals 1 exactly when `validate` returns no violations. -/
theorem claim_C9_consistency_score :
    ∀ (fp : Fingerprint) (c : Option String),
      consistencyScore fp c =
        max (1 - ((validate fp c).map (fun v => sevPenalty v.severity)).sum) 0 ∧
      0 ≤ consistencyScore fp c ∧ consistencyScore fp c ≤ 1 ∧
      (consistencyScore fp c = 1 ↔ validate fp c = []) := by
  intro fp c
  have hpen : ∀ l : List GeoViolation,
      0 ≤ (l.map (fun v => sevPenalty v.severity)).sum := by
    intro l
    apply List.sum_nonneg
    intro x hx
    simp only [List.mem_map] at hx
    obtain ⟨v, -, rfl⟩ := hx
    cases v.severity <;> norm_num [sevPenalty]
  have hform : consistencyScore fp c =
      max (1 - ((validate fp c).map (fun v => sevPenalty v.severity)).sum) 0 := rfl
  refine ⟨hform, ?_, ?_, ?_⟩
  · rw [hform]; exact le_max_right _ _
  · rw [hform]
    exact max_le (by linarith [hpen (validate fp c)]) (by norm_num)
  · rw [hform]
    constructor
    · intro h1
      cases hv : validate fp c with
      | nil => rfl
      | cons v vs =>
        exfalso
        rw [hv] at h1
        have hrest := hpen vs
        have hsev : (0.05 : ℚ) ≤ sevPenalty v.severity := by
          cases v.severity <;> norm_num [sevPenalty]
        rw [List.map_cons, List.sum_cons] at h1
        have hle : max (1 - (sevPenalty v.severity +
            (vs.map (fun v => sevPenalty v.severity)).sum)) 0 ≤ (0.95 : ℚ) :=
          max_le (by linarith) (by norm_num)
        rw [h1] at hle
        norm_num at hle
    · intro h1
      rw [h1]
      norm_num

/-- C10: when the pre-correction violation list is non-empty,
`auto_correct`'s `residual` is exactly the full re-validation of the
corrected fingerprint (so violations introduced by the correction appear in
`residual` and never in `fixed`), and `fixed` is exactly the
pre-correction violations whose codes are absent from the post-correction
list. -/
theorem claim_C10_autocorrect_diff :
    ∀ (fp : Fingerprint) (cc : String) (seed : Nat) (G : Nat → Nat → Nat),
      validate fp (some cc) ≠ [] →
      (autoCorrect fp cc seed G).2.residual =
        validate (autoCorrect fp cc seed G).1 (some cc) ∧
      (autoCorrect fp cc seed G).2.fixed =
        (validate fp (some cc)).filter
          (fun v => !((validate (autoCorrect fp cc seed G).1 (some cc)).any
            (fun a => a.code == v.code))) := by
  intro fp cc seed G hb
  rw [autoCorrect_of_ne hb]
  exact ⟨rfl, rfl⟩

theorem claim_C10_witness :
    validate (enforceGeo (generate 3 oracleZero) "JP" oracleZero) (some "US") ≠ [] ∧
    ((autoCorrect (enforceGeo (generate 3 oracleZero) "JP" oracleZero) "US" 3
        oracleZero).2.residual =
      validate (autoCorrect (enforceGeo (generate 3 oracleZero) "JP" oracleZero) "US" 3
        oracleZero).1 (some "US") ∧
    (autoCorrect (enforceGeo (generate 3 oracleZero) "JP" oracleZero) "US" 3
        oracleZero).2.fixed =
      (validate (enforceGeo (generate 3 oracleZero) "JP" oracleZero) (some "US")).filter
        (fun v => !((validate (autoCorrect (enforceGeo (generate 3 oracleZero) "JP"
          oracleZero) "US" 3 oracleZero).1 (some "US")).any
            (fun a => a.code == v.code)))) :=
  ⟨by decide,
    claim_C10_autocorrect_diff (enforceGeo (generate 3 oracleZero) "JP" oracleZero)
      "US" 3 oracleZero (by decide)⟩

end Manifold
